import Mathlib

/-!
Cloudreve: storage-driver dispatch, shadow relay driver and upload-callback middleware

A shallow embedding of

* `pkg/filesystem/filesystem.go` (the `FileSystem` orchestrator: `reset`, `Recycle`,
  `DispatchHandler`, `SwitchToShadowHandler`),
* `pkg/filesystem/driver/shadow/masterinslave/handler.go` (the master-in-slave driver),
* `middleware/auth.go` (`SignRequired`, `UseUploadSession`, `uploadCallbackCheck`,
  `RemoteCallbackAuth`),
* `service/callback/upload.go` (`ProcessCallback`) with the constructors of `FileSystem` it
  goes through (`NewFileSystemFromCallback` and the ones below it),
* `service/node/fabric.go` (`HandleSlaveNotificationPush`).

Conventions.  A Go pointer that may be nil is an `Option`.  A `*model.Policy` is an address
into a policy store (`Mem`), so that an in-place rewrite is visible through every alias.  A Go
`error` result is an `Option Error` (`none` is `nil`).  A method of the `driver.Handler`
interface is a state-passing function on a world `W`; `none` stands for a run-time panic.
Packages that are not part of the sources at hand (`serializer`, `cache`, `auth`, `models`,
the `local` and `remote` drivers, `mq`) enter as parameters, collected in `Drivers`, `Env` and
`CallbackEnv`, or as definitions marked as modelled.
-/

namespace Cloudreve

/-! ## Errors -/

/-- Go `error` values; package-level error variables are compared by identity. -/
inductive Error where
  /-- The variable `filesystem.ErrUnknownPolicyType`. -/
  | ErrUnknownPolicyType
  /-- The variable `masterinslave.ErrNotImplemented`. -/
  | ErrNotImplemented
  /-- An error made by `errors.New msg`. -/
  | errorsNew (msg : String)
  /-- An error produced by a package outside the sources at hand. -/
  | foreign (msg : String)
  deriving DecidableEq, Repr

/-! ## Models -/

/-- The fields of `model.Policy` that the embedded code reads or writes. -/
structure Policy where
  /-- The field `Type` (a reserved word here). -/
  Type_ : String
  Server : String
  AccessKey : String
  SecretKey : String
  deriving DecidableEq, Repr

/-- The fields of `model.User` that the embedded code reads. -/
structure User where
  ID : Nat
  deriving DecidableEq, Repr

/-- A `model.File` record. -/
structure File where
  ID : Nat
  Name : String
  deriving DecidableEq, Repr

/-- A `model.Folder` record. -/
structure Folder where
  ID : Nat
  Name : String
  deriving DecidableEq, Repr

/-- The address of a `model.Policy` (the value of a `*model.Policy`). -/
abbrev PolicyPtr := Nat

/-- The policy store: what each `*model.Policy` points to. -/
abbrev Mem := PolicyPtr → Policy

/-- The database row of a node, `model.Node`. -/
structure NodeModel where
  MasterKey : String
  deriving DecidableEq, Repr

/-- A `cluster.Node`, through its two accessors `ID()` and `DBModel()`. -/
structure Node where
  ID : Nat
  DBModel : NodeModel
  deriving DecidableEq, Repr

/-- A Go slice: its backing array (`none` for the nil slice, the length of the list being the
capacity) and its length. -/
structure Slice (α : Type) where
  array : Option (List α)
  len : Nat

namespace Slice

/-- The nil slice, zero value of a slice type. -/
def nil {α : Type} : Slice α := ⟨none, 0⟩

/-- The elements visible through the slice: the first `len` cells of the backing array. -/
def toList {α : Type} (s : Slice α) : List α := (s.array.getD []).take s.len

/-- The slice expression `s[:0]`: same backing array, length zero. -/
def resliceZero {α : Type} (s : Slice α) : Slice α := ⟨s.array, 0⟩

end Slice

/-- A `sync.Mutex`; its zero value is unlocked. -/
structure Mutex where
  locked : Bool
  deriving DecidableEq, Repr

/-- The zero value `sync.Mutex{}`. -/
def Mutex.zero : Mutex := ⟨false⟩

/-- A `filesystem.Hook`: the hook functions are named by the code that registers them. -/
inductive Hook where
  | HookValidateCapacity
  | HookChunkUploaded
  | HookPopPlaceholderToFile (picInfo : String)
  | HookDeleteTempFile
  | named (name : String)
  deriving DecidableEq, Repr

/-! ## The `driver.Handler` interface -/

/-- A `fsctx.FileHeader`. -/
structure FileHeader where
  SavePath : String
  Size : Nat
  deriving DecidableEq, Repr

/-- The fields of `serializer.UploadSession` that the embedded code reads. -/
structure UploadSession where
  Key : String
  UID : Nat
  Policy : Policy
  deriving DecidableEq, Repr

/-- A computation of a driver method on the world `W`: `none` is a panic. -/
abbrev Op (W α : Type) := W → Option (W × α)

/-- The method set of `driver.Handler`.  A pair result `(T, error)` is a pair of options; the
`context.Context` argument carries no data the embedded code looks at and is left out. -/
structure Handler (W : Type) where
  Put : FileHeader → Op W (Option Error)
  Delete : List String → Op W (List String × Option Error)
  Get : String → Op W (Option String × Option Error)
  Thumb : Option File → Op W (Option String × Option Error)
  Source : String → Int → Bool → Int → Op W (String × Option Error)
  Token : Int → Option UploadSession → FileHeader → Op W (Option String × Option Error)
  List : String → Bool → Op W (Option (List String) × Option Error)
  CancelToken : Option UploadSession → Op W (Option Error)

/-- The drivers whose packages are outside the sources at hand: the value `local.Driver{Policy: p}`
and the constructor `remote.NewDriver p`, which may fail. -/
structure Drivers (W : Type) where
  localDriver : Option PolicyPtr → Handler W
  remoteNewDriver : Mem → PolicyPtr → Except Error (Handler W)

/-! ## The `FileSystem` orchestrator (`pkg/filesystem/filesystem.go`) -/

/-- `FileSystem`, field for field. -/
structure FileSystem (W : Type) where
  User : Option User
  Policy : Option PolicyPtr
  FileTarget : Slice File
  DirTarget : Slice Folder
  Root : Option Folder
  Lock : Mutex
  Hooks : Option (List (String × List Hook))
  Handler : Option (Handler W)
  recycleLock : Mutex

/-- The zero value `&FileSystem{}` made by `FSPool.New`. -/
def FileSystem.empty {W : Type} : FileSystem W :=
  { User := none, Policy := none, FileTarget := Slice.nil, DirTarget := Slice.nil, Root := none,
    Lock := Mutex.zero, Hooks := none, Handler := none, recycleLock := Mutex.zero }

/-- `DispatchHandler`: bind the driver that the policy type names.  The result is the
file system after the call and the returned `error`. -/
def DispatchHandler {W : Type} (D : Drivers W) (mem : Mem) (fs : FileSystem W) :
    FileSystem W × Option Error :=
  match fs.Policy with
  | none => (fs, some (Error.errorsNew "未设置存储策略"))
  | some currentPolicy =>
    let policyType := (mem currentPolicy).Type_
    if policyType = "mock" ∨ policyType = "anonymous" then
      (fs, none)
    else if policyType = "local" then
      ({ fs with Handler := some (D.localDriver (some currentPolicy)) }, none)
    else if policyType = "remote" then
      match D.remoteNewDriver mem currentPolicy with
      | Except.error err => (fs, some err)
      | Except.ok handler => ({ fs with Handler := some handler }, none)
    else
      (fs, some Error.ErrUnknownPolicyType)

/-- `CleanTargets`: both target slices are resliced to length zero. -/
def FileSystem.CleanTargets {W : Type} (fs : FileSystem W) : FileSystem W :=
  let fs := { fs with FileTarget := fs.FileTarget.resliceZero }
  { fs with DirTarget := fs.DirTarget.resliceZero }

/-- `reset`, assignment by assignment. -/
def FileSystem.reset {W : Type} (fs : FileSystem W) : FileSystem W :=
  let fs := { fs with User := none }
  let fs := fs.CleanTargets
  let fs := { fs with Policy := none }
  let fs := { fs with Hooks := none }
  let fs := { fs with Handler := none }
  let fs := { fs with Root := none }
  let fs := { fs with Lock := Mutex.zero }
  { fs with recycleLock := Mutex.zero }

/-- The pool `FSPool`: the instances put back and not yet taken out again. -/
abbrev Pool (W : Type) := List (FileSystem W)

/-- `getEmptyFS`: `FSPool.Get` hands out a pooled instance when there is one and the value of
`FSPool.New` otherwise. -/
def getEmptyFS {W : Type} (pool : Pool W) : FileSystem W × Pool W :=
  match pool with
  | [] => (FileSystem.empty, [])
  | fs :: rest => (fs, rest)

/-- `Recycle`: take the recycle lock (`none` when it is already held: the call blocks), reset,
put the instance back into the pool. -/
def FileSystem.Recycle {W : Type} (fs : FileSystem W) (pool : Pool W) : Option (Pool W) :=
  if fs.recycleLock.locked then none
  else
    let fs := { fs with recycleLock := ⟨true⟩ }
    some (fs.reset :: pool)

/-! ## The master-in-slave driver (`driver/shadow/masterinslave/handler.go`) -/

namespace masterinslave

/-- The struct `Driver`. -/
structure Driver (W : Type) where
  master : Node
  handler : Option (Handler W)
  policy : Option PolicyPtr

variable {W : Type}

/-- `Put` calls the inner handler; a nil inner handler panics. -/
def Driver.Put (d : Driver W) (file : FileHeader) : Op W (Option Error) := fun w =>
  match d.handler with
  | none => none
  | some h => h.Put file w

/-- `Delete` calls the inner handler; a nil inner handler panics. -/
def Driver.Delete (d : Driver W) (files : List String) : Op W (List String × Option Error) :=
  fun w =>
  match d.handler with
  | none => none
  | some h => h.Delete files w

/-- `Get` returns `nil, ErrNotImplemented`. -/
def Driver.Get (_d : Driver W) (_path : String) : Op W (Option String × Option Error) :=
  fun w => some (w, (none, some Error.ErrNotImplemented))

/-- `Thumb` returns `nil, ErrNotImplemented`. -/
def Driver.Thumb (_d : Driver W) (_file : Option File) : Op W (Option String × Option Error) :=
  fun w => some (w, (none, some Error.ErrNotImplemented))

/-- `Source` returns the empty string and `ErrNotImplemented`. -/
def Driver.Source (_d : Driver W) (_path : String) (_ttl : Int) (_isDownload : Bool)
    (_speed : Int) : Op W (String × Option Error) :=
  fun w => some (w, ("", some Error.ErrNotImplemented))

/-- `Token` returns `nil, ErrNotImplemented`. -/
def Driver.Token (_d : Driver W) (_ttl : Int) (_uploadSession : Option UploadSession)
    (_file : FileHeader) : Op W (Option String × Option Error) :=
  fun w => some (w, (none, some Error.ErrNotImplemented))

/-- `List` returns `nil, ErrNotImplemented`. -/
def Driver.List (_d : Driver W) (_path : String) (_recursive : Bool) :
    Op W (Option (List String) × Option Error) :=
  fun w => some (w, (none, some Error.ErrNotImplemented))

/-- `CancelToken` returns `nil`. -/
def Driver.CancelToken (_handler : Driver W) (_uploadSession : Option UploadSession) :
    Op W (Option Error) :=
  fun w => some (w, none)

/-- The driver seen through the interface `driver.Handler`: its method set. -/
def Driver.toHandler (d : Driver W) : Handler W :=
  { Put := d.Put, Delete := d.Delete, Get := d.Get, Thumb := d.Thumb, Source := d.Source,
    Token := d.Token, List := d.List, CancelToken := d.CancelToken }

/-- `NewDriver`: the struct with the three fields, returned as a `driver.Handler`. -/
def NewDriver (master : Node) (handler : Option (Handler W)) (policy : Option PolicyPtr) :
    Handler W :=
  Driver.toHandler { master := master, handler := handler, policy := policy }

end masterinslave

/-- `SwitchToShadowHandler`.  The result is the policy store and the file system after the call;
`none` is the nil dereference of `fs.Policy`.  The `error` of the inner `DispatchHandler` call
is dropped, as in the source; the argument `masterID` is not used by the source. -/
def SwitchToShadowHandler {W : Type} (D : Drivers W) (mem : Mem) (fs : FileSystem W)
    (master : Node) (masterURL _masterID : String) : Option (Mem × FileSystem W) :=
  match fs.Policy with
  | none => none
  | some p =>
    let r : Mem × FileSystem W :=
      if (mem p).Type_ = "local" then
        let mem := Function.update mem p { mem p with Type_ := "remote" }
        let mem := Function.update mem p { mem p with Server := masterURL }
        let mem := Function.update mem p { mem p with AccessKey := toString master.ID }
        let mem := Function.update mem p { mem p with SecretKey := master.DBModel.MasterKey }
        (mem, (DispatchHandler D mem fs).1)
      else
        (mem, fs)
    some (r.1, { r.2 with Handler := some (masterinslave.NewDriver master r.2.Handler r.2.Policy) })

/-! ## The callback middleware (`middleware/auth.go`) -/

/-- The text of a response message: a literal of the source, or `err.Error()`. -/
inductive Msg where
  | text (s : String)
  | errorText (err : Error)
  deriving DecidableEq, Repr

/-- The struct `serializer.Response` without its `Data` field. -/
structure Response where
  Code : Int
  Msg : Msg
  Error : Option Error
  deriving DecidableEq, Repr

/-- The zero value `serializer.Response{}`. -/
def Response.zero : Response := ⟨0, Msg.text "", none⟩

/-- The parts of an `http.Request` that a signature is computed over. -/
structure Request where
  Method : String
  URL : String
  Body : String
  Authorization : String
  deriving DecidableEq, Repr

/-- An `auth.Auth` instance; `auth.HMACAuth` is given by its secret key. -/
structure Auth where
  SecretKey : String
  deriving DecidableEq, Repr

/-- What the middleware takes from packages outside the sources at hand: the response codes
of `serializer`, the cache key prefix of upload sessions, the user lookup of `models` and the
two signature checks of `auth`. -/
structure Env where
  CodeParamErr : Int
  CodeUploadSessionExpired : Int
  CodePolicyNotAllowed : Int
  CodeUserNotFound : Int
  CodeCredentialInvalid : Int
  UploadSessionCachePrefix : String
  GetActiveUserByID : Nat → Except Error User
  CheckRequest : Auth → Request → Option Error
  CheckURI : Auth → String → Option Error

/-- Modelled from the spec: `serializer.Err` (package `serializer` is not in the sources at
hand) builds the error response that carries the given code, message and cause. -/
def Err (code : Int) (msg : Msg) (err : Option Error) : Response := ⟨code, msg, err⟩

/-- Modelled from the spec: `serializer.ParamErr` is the parameter-error response, `Err` at the
code `CodeParamErr`. -/
def ParamErr (E : Env) (msg : Msg) (err : Option Error) : Response := Err E.CodeParamErr msg err

/-- Modelled from the spec: the upload-session cache (package `cache` is not in the sources at
hand) is a key-value store whose keys are the fixed prefix followed by the session id and
whose values are upload sessions. -/
abbrev Cache := List (String × UploadSession)

/-- Modelled from the spec: `cache.Get key`, the value stored under the key if there is one. -/
def Cache.Get (cache : Cache) (key : String) : Option UploadSession := List.lookup key cache

/-- Modelled from the spec: `cache.Deletes keys pfx` removes every entry stored under the prefix
followed by one of the keys. -/
def Cache.Deletes (cache : Cache) (keys : List String) (pfx : String) : Cache :=
  cache.filter (fun kv => !(keys.map (fun k => pfx ++ k)).contains kv.1)

/-- A `gin.Context`: the request, the path parameter `sessionID`, the two context keys the
middleware sets (`filesystem.UploadSessionCtx` and `filesystem.UserCtx`), the responses
written by `c.JSON` and the abort flag. -/
structure Context where
  Request : Request
  sessionID : String
  uploadSession : Option UploadSession
  user : Option User
  written : List (Nat × Response)
  aborted : Bool
  deriving DecidableEq, Repr

/-- The state a handler runs on: its `gin.Context` and the upload-session cache. -/
structure State where
  c : Context
  cache : Cache
  deriving DecidableEq, Repr

/-- `c.JSON code obj`. -/
def State.JSON (s : State) (code : Nat) (obj : Response) : State :=
  { s with c := { s.c with written := s.c.written ++ [(code, obj)] } }

/-- `c.Abort()`. -/
def State.Abort (s : State) : State := { s with c := { s.c with aborted := true } }

/-- The rest of the handler chain, run by `c.Next()`; `none` is a panic. -/
abbrev Next := State → Option State

/-- `CallbackFailedStatusCode`, which is `http.StatusUnauthorized`. -/
def CallbackFailedStatusCode : Nat := 401

/-- `uploadCallbackCheck`: the response and the state after the call. -/
def uploadCallbackCheck (E : Env) (s : State) (policyType : String) : Response × State :=
  let sessionID := s.c.sessionID
  if sessionID = "" then
    (ParamErr E (Msg.text "Session ID cannot be empty") none, s)
  else
    match s.cache.Get (E.UploadSessionCachePrefix ++ sessionID) with
    | none => (Err E.CodeUploadSessionExpired (Msg.text "上传会话不存在或已过期") none, s)
    | some callbackSession =>
      let s := { s with c := { s.c with uploadSession := some callbackSession } }
      if callbackSession.Policy.Type_ ≠ policyType then
        (Err E.CodePolicyNotAllowed (Msg.text "") none, s)
      else
        let s := { s with cache := s.cache.Deletes [sessionID] E.UploadSessionCachePrefix }
        match E.GetActiveUserByID callbackSession.UID with
        | Except.error err => (Err E.CodeUserNotFound (Msg.text "") (some err), s)
        | Except.ok user => (Response.zero, { s with c := { s.c with user := some user } })

/-- `UseUploadSession policyType`, with the rest of the chain as `next`. -/
def UseUploadSession (E : Env) (policyType : String) (next : Next) (s : State) : Option State :=
  let r := uploadCallbackCheck E s policyType
  if r.1.Code ≠ 0 then
    some ((r.2.JSON CallbackFailedStatusCode r.1).Abort)
  else
    next r.2

/-- `RemoteCallbackAuth`, with the rest of the chain as `next`; `c.MustGet` panics when the
upload session is not in the context. -/
def RemoteCallbackAuth (E : Env) (next : Next) (s : State) : Option State :=
  match s.c.uploadSession with
  | none => none
  | some session =>
    let authInstance : Auth := { SecretKey := session.Policy.SecretKey }
    match E.CheckRequest authInstance s.c.Request with
    | some err =>
      some ((s.JSON CallbackFailedStatusCode
        (Err E.CodeCredentialInvalid (Msg.errorText err) (some err))).Abort)
    | none => next s

/-- `SignRequired authInstance`, with the rest of the chain as `next`. -/
def SignRequired (E : Env) (authInstance : Auth) (next : Next) (s : State) : Option State :=
  let err :=
    if s.c.Request.Method = "PUT" ∨ s.c.Request.Method = "POST" ∨ s.c.Request.Method = "PATCH" then
      E.CheckRequest authInstance s.c.Request
    else
      E.CheckURI authInstance s.c.Request.URL
  match err with
  | some err =>
    some ((s.JSON 200 (Err E.CodeCredentialInvalid (Msg.errorText err) (some err))).Abort)
  | none => next s

/-! ## Hooks and the constructors of `FileSystem` from a request -/

/-- The hooks registered at a named point, `fs.Hooks[name]`: none for a nil map or a key that is
not in the map. -/
def FileSystem.hooksAt {W : Type} (fs : FileSystem W) (name : String) : List Hook :=
  ((fs.Hooks.getD []).lookup name).getD []

/-- Modelled from the spec: `fs.Use name hook` (the file `hooks.go` is not in the sources at
hand) registers the hook at the named point, after the hooks already registered there; a nil
map is made first. -/
def FileSystem.Use {W : Type} (fs : FileSystem W) (name : String) (hook : Hook) : FileSystem W :=
  let hooks := fs.Hooks.getD []
  match hooks.lookup name with
  | some _ =>
    { fs with Hooks := some (hooks.map (fun kv =>
        if kv.1 = name then (kv.1, kv.2 ++ [hook]) else kv)) }
  | none => { fs with Hooks := some (hooks ++ [(name, [hook])]) }

/-- The constant `fsctx.Nop` among the write modes of a `fsctx.FileStream`. -/
inductive WriteMode where
  | Overwrite
  | Append
  | Nop
  deriving DecidableEq, Repr

/-- The `fsctx.FileStream` built by `ProcessCallback`: `Size`, `Name`, `VirtualPath`, `SavePath`
and `LastModified` are copied from the upload session, kept here as the session they are copied
from; `Mode` and `Model` are the two other fields set. -/
structure FileStream where
  session : UploadSession
  Mode : WriteMode
  Model : File
  deriving DecidableEq, Repr

/-- What the callback service takes from outside the sources at hand: two more response codes
of `serializer`, the run mode of `conf`, the error of `model.GetGroupByID`, the placeholder
lookup `model.GetFilesByUploadSession`, the policy method `IsUploadPlaceholderWithSize`, the
method `fs.Upload` (of which only the effect on the world and the `error` are looked at), and
the addresses of `user.Policy` and of `callbackSession.Policy`. -/
structure CallbackEnv (W : Type) where
  CodeCreateFSError : Int
  CodeUploadFailed : Int
  Mode : String
  GetGroupByID : Nat → Option Error
  GetFilesByUploadSession : String → Nat → Except Error File
  IsUploadPlaceholderWithSize : Mem → PolicyPtr → Bool
  Upload : FileSystem W → FileStream → W → W × Option Error
  userPolicy : User → PolicyPtr
  sessionPolicy : PolicyPtr

/-- The results `(fs, err)` of a constructor of `FileSystem`, with the pool and the policy
store after the call. -/
structure NewFS (W : Type) where
  fs : Option (FileSystem W)
  err : Option Error
  pool : Pool W
  mem : Mem

/-- `NewFileSystem user`: the instance is returned together with the error of the dispatch. -/
def NewFileSystem {W : Type} (D : Drivers W) (K : CallbackEnv W) (user : User) (mem : Mem)
    (pool : Pool W) : NewFS W :=
  let g := getEmptyFS pool
  let fs := { g.1 with User := some user }
  let fs := { fs with Policy := some (K.userPolicy user) }
  let d := DispatchHandler D mem fs
  { fs := some d.1, err := d.2, pool := g.2, mem := mem }

/-- `NewAnonymousFileSystem`: the user is the zero value `model.User{}`; in master mode the
guest group is looked up (the group is not among the fields modelled), otherwise the local
driver `local.Driver{}` is bound. -/
def NewAnonymousFileSystem {W : Type} (D : Drivers W) (K : CallbackEnv W) (mem : Mem)
    (pool : Pool W) : NewFS W :=
  let g := getEmptyFS pool
  let fs := { g.1 with User := some ⟨0⟩ }
  if K.Mode = "master" then
    match K.GetGroupByID 3 with
    | some err => { fs := none, err := some err, pool := g.2, mem := mem }
    | none => { fs := some fs, err := none, pool := g.2, mem := mem }
  else
    { fs := some { fs with Handler := some (D.localDriver none) }, err := none, pool := g.2,
      mem := mem }

/-- `NewFileSystemFromContext`: the key `user` of the context is the slot `user`. -/
def NewFileSystemFromContext {W : Type} (D : Drivers W) (K : CallbackEnv W) (c : Context)
    (mem : Mem) (pool : Pool W) : NewFS W :=
  match c.user with
  | none => NewAnonymousFileSystem D K mem pool
  | some user => NewFileSystem D K user mem pool

/-- `NewFileSystemFromCallback`: the policy is re-pointed to the policy of the upload session,
which sits in the store at the address `sessionPolicy`, and the handler is dispatched again.
`none` is the nil dereference of a constructor that returned neither instance nor error. -/
def NewFileSystemFromCallback {W : Type} (D : Drivers W) (K : CallbackEnv W) (c : Context)
    (mem : Mem) (pool : Pool W) : Option (NewFS W) :=
  let r := NewFileSystemFromContext D K c mem pool
  match r.err with
  | some err => some { fs := none, err := some err, pool := r.pool, mem := r.mem }
  | none =>
    match c.uploadSession with
    | none =>
      some { fs := none, err := some (Error.errorsNew "upload session not exist"),
             pool := r.pool, mem := r.mem }
    | some callbackSession =>
      match r.fs with
      | none => none
      | some fs =>
        let mem := Function.update r.mem K.sessionPolicy callbackSession.Policy
        let fs := { fs with Policy := some K.sessionPolicy }
        let d := DispatchHandler D mem fs
        some { fs := some d.1, err := d.2, pool := r.pool, mem := mem }

/-! ## The callback service (`service/callback/upload.go`) -/

/-- The field of `serializer.UploadCallback` that `ProcessCallback` reads. -/
structure UploadCallback where
  PicInfo : String
  deriving DecidableEq, Repr

/-- `RemoteUploadCallbackService`. -/
structure RemoteUploadCallbackService where
  Data : UploadCallback
  deriving DecidableEq, Repr

/-- `GetBody`. -/
def RemoteUploadCallbackService.GetBody (service : RemoteUploadCallbackService) :
    UploadCallback := service.Data

/-- What a run of `ProcessCallback` leaves: the response, the world, the file system as it is
when the function returns (before the deferred `Recycle`; `none` when none was made) and the
pool after the deferred `Recycle`. -/
structure CallbackResult (W : Type) where
  resp : Response
  world : W
  atReturn : Option (FileSystem W)
  pool : Pool W

/-- The return of `ProcessCallback` once `defer fs.Recycle()` is in place: `Recycle` runs, then
the response is handed back; `none` when `Recycle` blocks. -/
def ProcessCallback.ret {W : Type} (fs : FileSystem W) (pool : Pool W) (resp : Response)
    (w : W) : Option (CallbackResult W) :=
  match fs.Recycle pool with
  | none => none
  | some pool => some { resp := resp, world := w, atReturn := some fs, pool := pool }

/-- The hook registrations of `ProcessCallback`, from the test of
`fs.Policy.IsUploadPlaceholderWithSize()` to the last `fs.Use`. -/
def ProcessCallback.hooks {W : Type} (K : CallbackEnv W) (mem : Mem) (policy : PolicyPtr)
    (callbackBody : UploadCallback) (fs : FileSystem W) : FileSystem W :=
  let fs :=
    if !K.IsUploadPlaceholderWithSize mem policy then
      let fs := fs.Use "AfterUpload" Hook.HookValidateCapacity
      fs.Use "AfterUpload" Hook.HookChunkUploaded
    else fs
  let fs := fs.Use "AfterUpload" (Hook.HookPopPlaceholderToFile callbackBody.PicInfo)
  fs.Use "AfterValidateFailed" Hook.HookDeleteTempFile

/-- `ProcessCallback`; `none` is a panic (`c.MustGet`, a nil dereference) or a `Recycle` that
blocks. -/
def ProcessCallback {W : Type} (D : Drivers W) (E : Env) (K : CallbackEnv W)
    (service : RemoteUploadCallbackService) (c : Context) (mem : Mem) (pool : Pool W) (w : W) :
    Option (CallbackResult W) :=
  let callbackBody := service.GetBody
  match NewFileSystemFromCallback D K c mem pool with
  | none => none
  | some r =>
    match r.err with
    | some err =>
      some { resp := Err K.CodeCreateFSError (Msg.errorText err) (some err), world := w,
             atReturn := none, pool := r.pool }
    | none =>
      match r.fs with
      | none => none
      | some fs =>
        match c.uploadSession with
        | none => none
        | some uploadSession =>
          match fs.User with
          | none => none
          | some user =>
            match K.GetFilesByUploadSession uploadSession.Key user.ID with
            | Except.error err =>
              ProcessCallback.ret fs r.pool
                (Err E.CodeUploadSessionExpired
                  (Msg.text "LocalUpload session file placeholder not exist") (some err)) w
            | Except.ok file =>
              let fileData : FileStream :=
                { session := uploadSession, Mode := WriteMode.Nop, Model := file }
              match fs.Policy with
              | none => none
              | some policy =>
                let fs := ProcessCallback.hooks K r.mem policy callbackBody fs
                let u := K.Upload fs fileData w
                match u.2 with
                | some err =>
                  ProcessCallback.ret fs r.pool
                    (Err K.CodeUploadFailed (Msg.errorText err) (some err)) u.1
                | none => ProcessCallback.ret fs r.pool Response.zero u.1

/-! ## The notification relay (`service/node/fabric.go`) -/

/-- `SlaveNotificationService`: the subject bound from the request URI. -/
structure SlaveNotificationService where
  Subject : String
  deriving DecidableEq, Repr

/-- `HandleSlaveNotificationPush`, over a message type `M` and a bus state `Q` (package `mq` is
not in the sources at hand): `decode` is the gob decoding of the request body into an
`mq.Message`, `Publish` is `mq.GlobalMQ.Publish`.  The result is the response and the bus after
the call. -/
def HandleSlaveNotificationPush {M Q : Type} (E : Env) (decode : String → Except Error M)
    (Publish : String → M → Q → Q) (s : SlaveNotificationService) (c : Context) (mq : Q) :
    Response × Q :=
  match decode c.Request.Body with
  | Except.error err => (ParamErr E (Msg.text "Cannot parse notification message") (some err), mq)
  | Except.ok msg => (Response.zero, Publish s.Subject msg mq)

/-! ## Sample instances, used to exhibit the theorems on concrete inputs -/

/-- A handler that records each call in the world, a log of call names, and succeeds. -/
def logHandler (name : String) : Handler (List String) :=
  { Put := fun _ w => some (w ++ [name ++ ".Put"], none)
    Delete := fun _ w => some (w ++ [name ++ ".Delete"], ([], none))
    Get := fun path w => some (w ++ [name ++ ".Get"], (some path, none))
    Thumb := fun _ w => some (w ++ [name ++ ".Thumb"], (some "thumb", none))
    Source := fun path _ _ _ w => some (w ++ [name ++ ".Source"], (path, none))
    Token := fun _ _ _ w => some (w ++ [name ++ ".Token"], (some "credential", none))
    List := fun _ _ w => some (w ++ [name ++ ".List"], (some [], none))
    CancelToken := fun _ w => some (w ++ [name ++ ".CancelToken"], none) }

/-- Sample drivers: the remote driver cannot be built for the server address `://`. -/
def sampleDrivers : Drivers (List String) :=
  { localDriver := fun _ => logHandler "local"
    remoteNewDriver := fun mem p =>
      if (mem p).Server = "://" then Except.error (Error.foreign "invalid server address")
      else Except.ok (logHandler "remote") }

/-- A sample policy store: address `0` holds a policy of the given type. -/
def sampleMem (type : String) : Mem := fun _ => ⟨type, "", "", ""⟩

/-- A sample file system bound to the policy at address `0`, with a local driver. -/
def sampleFS : FileSystem (List String) :=
  { User := some ⟨7⟩, Policy := some 0, FileTarget := ⟨some [⟨1, "a.txt"⟩], 1⟩,
    DirTarget := ⟨some [⟨2, "docs"⟩], 1⟩, Root := some ⟨2, "docs"⟩, Lock := ⟨true⟩,
    Hooks := some [("AfterUpload", [Hook.HookValidateCapacity])],
    Handler := some (logHandler "local"), recycleLock := ⟨false⟩ }

/-- A sample master node. -/
def sampleMaster : Node := ⟨3, ⟨"master-key"⟩⟩

/-- A sample environment: sample response codes, the prefix `callback_`, one active user
(id 7), and a signature check that accepts a request whose `Authorization` is the secret key. -/
def sampleEnv : Env :=
  { CodeParamErr := 40001, CodeUploadSessionExpired := 40011, CodePolicyNotAllowed := 40006,
    CodeUserNotFound := 40017, CodeCredentialInvalid := 40020,
    UploadSessionCachePrefix := "callback_",
    GetActiveUserByID := fun uid =>
      if uid = 7 then Except.ok ⟨7⟩ else Except.error (Error.foreign "record not found"),
    CheckRequest := fun a r =>
      if r.Authorization = a.SecretKey then none else some (Error.foreign "invalid sign"),
    CheckURI := fun _ _ => some (Error.foreign "invalid sign") }

/-- A sample upload session of user 7 under a `remote` policy with the secret `secret`. -/
def sampleSession : UploadSession := ⟨"abc", 7, ⟨"remote", "http://slave", "1", "secret"⟩⟩

/-- A sample callback request for the session `abc`, on a cache that holds it, carrying the
given `Authorization`. -/
def sampleState (authorization : String) : State :=
  { c := { Request := ⟨"POST", "/api/v3/callback/remote/abc", "{}", authorization⟩,
           sessionID := "abc", uploadSession := none, user := none, written := [],
           aborted := false },
    cache := [("callback_abc", sampleSession)] }

/-- A sample last handler of a chain: it records that it ran by writing a response. -/
def sampleController : Next := fun s => some (s.JSON 200 Response.zero)

/-- A sample name for each hook, for logs. -/
def sampleHookName : Hook → String
  | Hook.HookValidateCapacity => "HookValidateCapacity"
  | Hook.HookChunkUploaded => "HookChunkUploaded"
  | Hook.HookPopPlaceholderToFile _ => "HookPopPlaceholderToFile"
  | Hook.HookDeleteTempFile => "HookDeleteTempFile"
  | Hook.named name => name

/-- A sample callback environment on the log world: slave mode, the placeholder `a.txt` for the
session `abc` of user 7, a policy that pre-deducts when `presized`, and an upload that logs the
names of the hooks it finds at `AfterUpload` and `AfterValidateFailed` and returns
`uploadErr`.  The user's policy sits at address 0, the session's at address 1. -/
def sampleCallbackEnv (presized : Bool) (uploadErr : Option Error) :
    CallbackEnv (List String) :=
  { CodeCreateFSError := 40050, CodeUploadFailed := 40002, Mode := "slave",
    GetGroupByID := fun _ => none,
    GetFilesByUploadSession := fun key uid =>
      if key = "abc" ∧ uid = 7 then Except.ok ⟨9, "a.txt"⟩
      else Except.error (Error.foreign "record not found"),
    IsUploadPlaceholderWithSize := fun _ _ => presized,
    Upload := fun fs _ w =>
      (w ++ (fs.hooksAt "AfterUpload").map sampleHookName ++ ["|"]
        ++ (fs.hooksAt "AfterValidateFailed").map sampleHookName, uploadErr),
    userPolicy := fun _ => 0, sessionPolicy := 1 }

/-- A sample context as the callback middleware leaves it: the session and its user bound. -/
def sampleCallbackContext (session : UploadSession) : Context :=
  { Request := ⟨"POST", "/api/v3/callback/remote/abc", "{}", "secret"⟩, sessionID := "abc",
    uploadSession := some session, user := some ⟨7⟩, written := [], aborted := false }

/-- A sample callback body. -/
def sampleService : RemoteUploadCallbackService := ⟨⟨"800,600"⟩⟩

/-- A sample bus: the list of the publications made, oldest first. -/
def samplePublish (subject : String) (msg : String) (mq : List (String × String)) :
    List (String × String) := mq ++ [(subject, msg)]

/-- A sample decoder: every body but the empty one decodes, to itself. -/
def sampleDecode (body : String) : Except Error String :=
  if body = "" then Except.error (Error.foreign "unexpected EOF") else Except.ok body

/-- The file system that `NewFileSystemFromCallback` makes on the sample context from an empty
pool: user 7, the session's policy at address 1, the remote driver. -/
def sampleCallbackFS : FileSystem (List String) :=
  { (FileSystem.empty : FileSystem (List String)) with
    User := some ⟨7⟩, Policy := some 1, Handler := some (logHandler "remote") }

/-- The result of `NewFileSystemFromCallback` on the sample context of the given session, from
an empty pool and the sample store of `local` policies. -/
def sampleNewFS (session : UploadSession) : NewFS (List String) :=
  { fs := some sampleCallbackFS, err := none, pool := [],
    mem := Function.update (sampleMem "local") 1 session.Policy }

/-! ## Theorems -/

/-! ### `DispatchHandler` -/

/-- C1: for a file system whose policy is set and whose policy type is none of `mock`,
`anonymous`, `local`, `remote`, `DispatchHandler` returns `ErrUnknownPolicyType` and assigns
nothing: the file system, and with it the handler, is what it was, so a handler that was unset
stays unset and no backend is bound. -/
theorem DispatchHandler_unknown_type {W : Type} (D : Drivers W) (mem : Mem) (fs : FileSystem W)
    (p : PolicyPtr) (hp : fs.Policy = some p)
    (hmock : (mem p).Type_ ≠ "mock") (hanon : (mem p).Type_ ≠ "anonymous")
    (hlocal : (mem p).Type_ ≠ "local") (hremote : (mem p).Type_ ≠ "remote") :
    (DispatchHandler D mem fs).2 = some Error.ErrUnknownPolicyType ∧
    (DispatchHandler D mem fs).1 = fs ∧
    (DispatchHandler D mem fs).1.Handler = fs.Handler ∧
    (fs.Handler = none → (DispatchHandler D mem fs).1.Handler = none) := by
  have h : DispatchHandler D mem fs = (fs, some Error.ErrUnknownPolicyType) := by
    simp [DispatchHandler, hp, hmock, hanon, hlocal, hremote]
  rw [h]
  exact ⟨rfl, rfl, rfl, fun hn => hn⟩

/-- C1 on a sample: a policy of type `s3` and no handler bound. -/
theorem DispatchHandler_unknown_type_witness :
    (DispatchHandler sampleDrivers (sampleMem "s3") { sampleFS with Handler := none }).2
        = some Error.ErrUnknownPolicyType ∧
    (DispatchHandler sampleDrivers (sampleMem "s3") { sampleFS with Handler := none }).1
        = { sampleFS with Handler := none } ∧
    (DispatchHandler sampleDrivers (sampleMem "s3") { sampleFS with Handler := none }).1.Handler
        = none ∧
    (none = (none : Option (Handler (List String))) →
      (DispatchHandler sampleDrivers (sampleMem "s3") { sampleFS with Handler := none }).1.Handler
        = none) :=
  DispatchHandler_unknown_type sampleDrivers (sampleMem "s3") { sampleFS with Handler := none } 0
    rfl (by decide) (by decide) (by decide) (by decide)

/-! ### The master-in-slave driver -/

/-- C7: for the master-in-slave driver that wraps an inner handler `h`, `Put` and `Delete` are
the calls of `h.Put` and `h.Delete` on the same arguments (same world, same result, same
error), while `Get`, `Thumb`, `Source`, `Token` and `List` return `ErrNotImplemented` with an
empty result for every argument and leave the world as it is, whatever `h` is: `h` is not
called. -/
theorem masterinslave_delegates_only_put_delete {W : Type} (master : Node) (h : Handler W)
    (policy : Option PolicyPtr) :
    (∀ file w, (masterinslave.NewDriver master (some h) policy).Put file w = h.Put file w) ∧
    (∀ files w,
      (masterinslave.NewDriver master (some h) policy).Delete files w = h.Delete files w) ∧
    (∀ path w, (masterinslave.NewDriver master (some h) policy).Get path w
      = some (w, (none, some Error.ErrNotImplemented))) ∧
    (∀ file w, (masterinslave.NewDriver master (some h) policy).Thumb file w
      = some (w, (none, some Error.ErrNotImplemented))) ∧
    (∀ path ttl isDownload speed w,
      (masterinslave.NewDriver master (some h) policy).Source path ttl isDownload speed w
      = some (w, ("", some Error.ErrNotImplemented))) ∧
    (∀ ttl uploadSession file w,
      (masterinslave.NewDriver master (some h) policy).Token ttl uploadSession file w
      = some (w, (none, some Error.ErrNotImplemented))) ∧
    (∀ path recursive w, (masterinslave.NewDriver master (some h) policy).List path recursive w
      = some (w, (none, some Error.ErrNotImplemented))) :=
  ⟨fun _ _ => rfl, fun _ _ => rfl, fun _ _ => rfl, fun _ _ => rfl, fun _ _ _ _ _ => rfl,
    fun _ _ _ _ => rfl, fun _ _ _ => rfl⟩

/-- C8, as stated, fails: `CancelToken` of the master-in-slave driver is not delegated (the
log of the inner handler stays empty) and yet returns the nil error. -/
theorem masterinslave_CancelToken_returns_nil :
    (masterinslave.NewDriver sampleMaster (some (logHandler "inner")) (some 0)).CancelToken
        (some ⟨"abc", 7, ⟨"remote", "", "", "secret"⟩⟩) []
      = some ([], none) ∧
    ¬ ∃ w err,
      (masterinslave.NewDriver sampleMaster (some (logHandler "inner")) (some 0)).CancelToken
        (some ⟨"abc", 7, ⟨"remote", "", "", "secret"⟩⟩) [] = some (w, some err) := by
  refine ⟨rfl, ?_⟩
  rintro ⟨w, err, h⟩
  have h2 : (some (([] : List String), (none : Option Error)))
      = some (w, some err) := h
  simp at h2

/-- C8, amended: of the operations of the master-in-slave driver that are not delegated,
`Get`, `Thumb`, `Source`, `Token` and `List` fail with the error `ErrNotImplemented` for every
argument, and `CancelToken` is a no-op that returns the nil error for every upload session,
leaving the world as it is. -/
theorem masterinslave_undelegated_operations {W : Type} (master : Node)
    (handler : Option (Handler W)) (policy : Option PolicyPtr) :
    (∀ path w, ∃ r, (masterinslave.NewDriver master handler policy).Get path w
      = some (w, (r, some Error.ErrNotImplemented))) ∧
    (∀ file w, ∃ r, (masterinslave.NewDriver master handler policy).Thumb file w
      = some (w, (r, some Error.ErrNotImplemented))) ∧
    (∀ path ttl isDownload speed w, ∃ r,
      (masterinslave.NewDriver master handler policy).Source path ttl isDownload speed w
      = some (w, (r, some Error.ErrNotImplemented))) ∧
    (∀ ttl uploadSession file w, ∃ r,
      (masterinslave.NewDriver master handler policy).Token ttl uploadSession file w
      = some (w, (r, some Error.ErrNotImplemented))) ∧
    (∀ path recursive w, ∃ r,
      (masterinslave.NewDriver master handler policy).List path recursive w
      = some (w, (r, some Error.ErrNotImplemented))) ∧
    (∀ uploadSession w,
      (masterinslave.NewDriver master handler policy).CancelToken uploadSession w
      = some (w, none)) :=
  ⟨fun _ _ => ⟨_, rfl⟩, fun _ _ => ⟨_, rfl⟩, fun _ _ _ _ _ => ⟨_, rfl⟩,
    fun _ _ _ _ => ⟨_, rfl⟩, fun _ _ _ => ⟨_, rfl⟩, fun _ _ => rfl⟩

/-! ### `reset` and `Recycle` -/

/-- The recycle lock taken by `Recycle` does not survive `reset`. -/
theorem reset_recycleLock {W : Type} (fs : FileSystem W) (m : Mutex) :
    FileSystem.reset { fs with recycleLock := m } = fs.reset := rfl

/-- C9: whatever the state of a file system, after `reset` its `User`, `Policy`, `Handler`,
`Hooks` and `Root` are nil, `FileTarget` and `DirTarget` have length zero and show no element,
and both locks are zero: every field is that of the empty file system, the two slices keeping
only their backing arrays behind length zero.  `Recycle`, when the recycle lock is free, puts
exactly this reset instance into the pool, and `getEmptyFS` hands it out again. -/
theorem reset_leaves_no_residue {W : Type} (fs : FileSystem W) :
    fs.reset.User = none ∧ fs.reset.Policy = none ∧ fs.reset.Handler = none ∧
    fs.reset.Hooks = none ∧ fs.reset.Root = none ∧
    fs.reset.FileTarget.len = 0 ∧ fs.reset.DirTarget.len = 0 ∧
    fs.reset.FileTarget.toList = (FileSystem.empty : FileSystem W).FileTarget.toList ∧
    fs.reset.DirTarget.toList = (FileSystem.empty : FileSystem W).DirTarget.toList ∧
    fs.reset.Lock = Mutex.zero ∧ fs.reset.recycleLock = Mutex.zero ∧
    fs.reset = { (FileSystem.empty : FileSystem W) with
      FileTarget := ⟨fs.FileTarget.array, 0⟩, DirTarget := ⟨fs.DirTarget.array, 0⟩ } ∧
    (∀ pool : Pool W, fs.recycleLock.locked = false →
      fs.Recycle pool = some (fs.reset :: pool) ∧
      getEmptyFS (fs.reset :: pool) = (fs.reset, pool)) := by
  refine ⟨rfl, rfl, rfl, rfl, rfl, rfl, rfl, ?_, ?_, rfl, rfl, rfl, ?_⟩
  · simp [FileSystem.reset, FileSystem.CleanTargets, Slice.resliceZero, Slice.toList,
      FileSystem.empty, Slice.nil]
  · simp [FileSystem.reset, FileSystem.CleanTargets, Slice.resliceZero, Slice.toList,
      FileSystem.empty, Slice.nil]
  · intro pool hfree
    refine ⟨?_, rfl⟩
    simp only [FileSystem.Recycle, hfree, Bool.false_eq_true, if_false]
    rw [reset_recycleLock]

/-- C9 on a sample: a file system with a user, a policy, a handler, hooks, a root and one
target of each kind. -/
theorem reset_leaves_no_residue_witness :
    sampleFS.recycleLock.locked = false ∧
    sampleFS.reset.FileTarget.toList = [] ∧
    sampleFS.Recycle [] = some [sampleFS.reset] ∧
    getEmptyFS [sampleFS.reset] = (sampleFS.reset, []) :=
  ⟨rfl, (reset_leaves_no_residue sampleFS).2.2.2.2.2.2.2.1,
    ((reset_leaves_no_residue sampleFS).2.2.2.2.2.2.2.2.2.2.2.2 [] rfl).1,
    ((reset_leaves_no_residue sampleFS).2.2.2.2.2.2.2.2.2.2.2.2 [] rfl).2⟩

/-! ### `SwitchToShadowHandler` -/

/-- The policy that `SwitchToShadowHandler` writes over a `local` policy. -/
theorem shadow_rewrite_eq (mem : Mem) (p : PolicyPtr) (master : Node) (masterURL : String) :
    Function.update
      (Function.update
        (Function.update
          (Function.update mem p { mem p with Type_ := "remote" }) p
          { (Function.update mem p { mem p with Type_ := "remote" }) p with
            Server := masterURL }) p
        { (Function.update
            (Function.update mem p { mem p with Type_ := "remote" }) p
            { (Function.update mem p { mem p with Type_ := "remote" }) p with
              Server := masterURL }) p with AccessKey := toString master.ID }) p
      { (Function.update
          (Function.update
            (Function.update mem p { mem p with Type_ := "remote" }) p
            { (Function.update mem p { mem p with Type_ := "remote" }) p with
              Server := masterURL }) p
          { (Function.update
              (Function.update mem p { mem p with Type_ := "remote" }) p
              { (Function.update mem p { mem p with Type_ := "remote" }) p with
                Server := masterURL }) p with AccessKey := toString master.ID }) p with
        SecretKey := master.DBModel.MasterKey }
    = Function.update mem p
        { Type_ := "remote", Server := masterURL, AccessKey := toString master.ID,
          SecretKey := master.DBModel.MasterKey } := by
  simp [Function.update_idem, Function.update_same]

/-- C10: the code at the failing input.  With a `local` policy and a master address for which
the remote driver cannot be built, `SwitchToShadowHandler` rewrites the policy in place to
`remote`, the master address, the master's ID and the master's key; the re-dispatch returns the
error of the remote driver, which `SwitchToShadowHandler` drops; and the master-in-slave
driver that is bound wraps the handler bound before (the local driver: a `Put` through it
reaches `local.Put`), where the claim has it wrap the handler re-dispatched for the rewritten
policy.  `NewFileSystem` and `NewFileSystemFromCallback` hand the same error back to their
callers. -/
theorem SwitchToShadowHandler_wraps_stale_handler :
    (sampleMem "local" 0).Type_ = "local" ∧
    (SwitchToShadowHandler sampleDrivers (sampleMem "local") sampleFS sampleMaster "://" "3").map
        (fun r => r.1 0)
      = some ⟨"remote", "://", "3", "master-key"⟩ ∧
    (DispatchHandler sampleDrivers
        (Function.update (sampleMem "local") 0 ⟨"remote", "://", "3", "master-key"⟩)
        sampleFS).2 = some (Error.foreign "invalid server address") ∧
    (¬ ∃ h, sampleDrivers.remoteNewDriver
        (Function.update (sampleMem "local") 0 ⟨"remote", "://", "3", "master-key"⟩) 0
        = Except.ok h) ∧
    SwitchToShadowHandler sampleDrivers (sampleMem "local") sampleFS sampleMaster "://" "3"
      = some (Function.update (sampleMem "local") 0 ⟨"remote", "://", "3", "master-key"⟩,
          { sampleFS with
            Handler := some (masterinslave.NewDriver sampleMaster
              (some (sampleDrivers.localDriver (some 0))) (some 0)) }) ∧
    (SwitchToShadowHandler sampleDrivers (sampleMem "local") sampleFS sampleMaster "://" "3").map
        (fun r => r.2.Handler.map (fun h => h.Put ⟨"a.txt", 1⟩ []))
      = some (some (some (["local.Put"], none))) := by
  have hrun : SwitchToShadowHandler sampleDrivers (sampleMem "local") sampleFS sampleMaster
        "://" "3"
      = some (Function.update (sampleMem "local") 0 ⟨"remote", "://", "3", "master-key"⟩,
          { sampleFS with
            Handler := some (masterinslave.NewDriver sampleMaster
              (some (sampleDrivers.localDriver (some 0))) (some 0)) }) := by
    have hl : (sampleMem "local" 0).Type_ = "local" := rfl
    have hm : Function.update (sampleMem "local") 0
          { Type_ := "remote", Server := "://", AccessKey := toString sampleMaster.ID,
            SecretKey := sampleMaster.DBModel.MasterKey }
        = Function.update (sampleMem "local") 0 ⟨"remote", "://", "3", "master-key"⟩ := rfl
    have hd : DispatchHandler sampleDrivers
          (Function.update (sampleMem "local") 0 ⟨"remote", "://", "3", "master-key"⟩) sampleFS
        = (sampleFS, some (Error.foreign "invalid server address")) := by
      simp [DispatchHandler, sampleFS, sampleDrivers]
    have hp : sampleFS.Policy = some 0 := rfl
    simp only [SwitchToShadowHandler, hp, hl, if_true]
    rw [shadow_rewrite_eq, hm, hd]
    rfl
  refine ⟨rfl, ?_, ?_, ?_, hrun, ?_⟩
  · rw [hrun]
    simp
  · simp [DispatchHandler, sampleFS, sampleDrivers]
  · simp [sampleDrivers]
  · rw [hrun]
    rfl

/-- `SwitchToShadowHandler` in full.  For a file system whose policy type is `local`, the
policy is rewritten in place (same address) to type `remote`, server `masterURL`, access key
the decimal rendering of the master's ID and secret key the master's `MasterKey`, whether or
not the re-dispatch succeeds, and every other policy is left alone; when the remote driver for
the rewritten policy can be built, the handler bound is the master-in-slave driver wrapping
that re-dispatched handler; when it cannot, the error is dropped and the handler bound is the
master-in-slave driver wrapping the handler that was bound before.  For every other policy
type the policy store is unchanged and the handler bound is the master-in-slave driver
wrapping the handler that was bound before. -/
theorem SwitchToShadowHandler_spec {W : Type} (D : Drivers W) (mem : Mem) (fs : FileSystem W)
    (master : Node) (masterURL masterID : String) (p : PolicyPtr) (hp : fs.Policy = some p) :
    ((mem p).Type_ = "local" →
      ((SwitchToShadowHandler D mem fs master masterURL masterID).map (fun r => r.1)
        = some (Function.update mem p
            { Type_ := "remote", Server := masterURL, AccessKey := toString master.ID,
              SecretKey := master.DBModel.MasterKey })) ∧
      ((SwitchToShadowHandler D mem fs master masterURL masterID).map (fun r => r.2.Policy)
        = some (some p)) ∧
      (∀ h, D.remoteNewDriver
          (Function.update mem p
            { Type_ := "remote", Server := masterURL, AccessKey := toString master.ID,
              SecretKey := master.DBModel.MasterKey }) p = Except.ok h →
        SwitchToShadowHandler D mem fs master masterURL masterID
          = some (Function.update mem p
              { Type_ := "remote", Server := masterURL, AccessKey := toString master.ID,
                SecretKey := master.DBModel.MasterKey },
            { fs with Handler := some (masterinslave.NewDriver master (some h) (some p)) })) ∧
      (∀ e, D.remoteNewDriver
          (Function.update mem p
            { Type_ := "remote", Server := masterURL, AccessKey := toString master.ID,
              SecretKey := master.DBModel.MasterKey }) p = Except.error e →
        SwitchToShadowHandler D mem fs master masterURL masterID
          = some (Function.update mem p
              { Type_ := "remote", Server := masterURL, AccessKey := toString master.ID,
                SecretKey := master.DBModel.MasterKey },
            { fs with Handler := some (masterinslave.NewDriver master fs.Handler (some p)) }))) ∧
    ((mem p).Type_ ≠ "local" →
      SwitchToShadowHandler D mem fs master masterURL masterID
        = some (mem,
          { fs with Handler := some (masterinslave.NewDriver master fs.Handler (some p)) })) := by
  constructor
  · intro hl
    have hok : ∀ h, D.remoteNewDriver
          (Function.update mem p
            { Type_ := "remote", Server := masterURL, AccessKey := toString master.ID,
              SecretKey := master.DBModel.MasterKey }) p = Except.ok h →
        SwitchToShadowHandler D mem fs master masterURL masterID
          = some (Function.update mem p
              { Type_ := "remote", Server := masterURL, AccessKey := toString master.ID,
                SecretKey := master.DBModel.MasterKey },
            { fs with
              Handler := some (masterinslave.NewDriver master (some h) (some p)) }) := by
      intro h hnew
      simp only [SwitchToShadowHandler, hp, hl, if_true]
      rw [shadow_rewrite_eq]
      have hd : DispatchHandler D
          (Function.update mem p
            { Type_ := "remote", Server := masterURL, AccessKey := toString master.ID,
              SecretKey := master.DBModel.MasterKey }) fs
          = ({ fs with Handler := some h }, none) := by
        simp [DispatchHandler, hp, hnew]
      rw [hd]
      simp [hp]
    have hfail : ∀ e, D.remoteNewDriver
          (Function.update mem p
            { Type_ := "remote", Server := masterURL, AccessKey := toString master.ID,
              SecretKey := master.DBModel.MasterKey }) p = Except.error e →
        SwitchToShadowHandler D mem fs master masterURL masterID
          = some (Function.update mem p
              { Type_ := "remote", Server := masterURL, AccessKey := toString master.ID,
                SecretKey := master.DBModel.MasterKey },
            { fs with
              Handler := some (masterinslave.NewDriver master fs.Handler (some p)) }) := by
      intro e hnew
      simp only [SwitchToShadowHandler, hp, hl, if_true]
      rw [shadow_rewrite_eq]
      have hd : DispatchHandler D
          (Function.update mem p
            { Type_ := "remote", Server := masterURL, AccessKey := toString master.ID,
              SecretKey := master.DBModel.MasterKey }) fs
          = (fs, some e) := by
        simp [DispatchHandler, hp, hnew]
      rw [hd]
      simp [hp]
    refine ⟨?_, ?_, hok, hfail⟩
    · cases hn : D.remoteNewDriver
          (Function.update mem p
            { Type_ := "remote", Server := masterURL, AccessKey := toString master.ID,
              SecretKey := master.DBModel.MasterKey }) p with
      | ok h => rw [hok h hn]; rfl
      | error e => rw [hfail e hn]; rfl
    · cases hn : D.remoteNewDriver
          (Function.update mem p
            { Type_ := "remote", Server := masterURL, AccessKey := toString master.ID,
              SecretKey := master.DBModel.MasterKey }) p with
      | ok h => rw [hok h hn]; simp [hp]
      | error e => rw [hfail e hn]; simp [hp]
  · intro hl
    simp [SwitchToShadowHandler, hp, hl]

/-- `SwitchToShadowHandler` on a sample: a `local` policy and the master address
`http://master`, for which the remote driver is built, then a `remote` policy. -/
theorem SwitchToShadowHandler_spec_witness :
    (SwitchToShadowHandler sampleDrivers (sampleMem "local") sampleFS sampleMaster
        "http://master" "3"
      = some (Function.update (sampleMem "local") 0
          { Type_ := "remote", Server := "http://master", AccessKey := toString sampleMaster.ID,
            SecretKey := sampleMaster.DBModel.MasterKey },
        { sampleFS with
          Handler := some (masterinslave.NewDriver sampleMaster (some (logHandler "remote"))
            (some 0)) })) ∧
    (SwitchToShadowHandler sampleDrivers (sampleMem "remote") sampleFS sampleMaster
        "http://master" "3"
      = some (sampleMem "remote",
        { sampleFS with
          Handler := some (masterinslave.NewDriver sampleMaster sampleFS.Handler (some 0)) })) :=
  ⟨((SwitchToShadowHandler_spec sampleDrivers (sampleMem "local") sampleFS sampleMaster
      "http://master" "3" 0 rfl).1 rfl).2.2.1 (logHandler "remote")
      (by simp [sampleDrivers]),
    (SwitchToShadowHandler_spec sampleDrivers (sampleMem "remote") sampleFS sampleMaster
      "http://master" "3" 0 rfl).2 (by decide)⟩

/-! ### The upload-session cache -/

/-- After `Deletes [id] pfx` nothing is stored under `pfx ++ id`. -/
theorem Cache.Get_Deletes_self (cache : Cache) (id pfx : String) :
    (cache.Deletes [id] pfx).Get (pfx ++ id) = none := by
  induction cache with
  | nil => rfl
  | cons kv rest ih =>
    obtain ⟨k, v⟩ := kv
    have ih2 : List.lookup (pfx ++ id)
        (List.filter (fun kv => !decide (kv.1 = pfx ++ id)) rest) = none := by
      simpa [Cache.Deletes, Cache.Get] using ih
    by_cases hk : k = pfx ++ id
    · simpa [Cache.Deletes, Cache.Get, List.filter_cons, hk] using ih2
    · have hb : (pfx ++ id == k) = false := by
        simpa using fun h : pfx ++ id = k => hk h.symm
      simp [Cache.Deletes, Cache.Get, List.filter_cons, hk, List.lookup_cons, hb, ih2]

/-- The call `Deletes [id] pfx` leaves every other key as it was. -/
theorem Cache.Get_Deletes_other (cache : Cache) (id pfx key : String) (h : key ≠ pfx ++ id) :
    (cache.Deletes [id] pfx).Get key = cache.Get key := by
  induction cache with
  | nil => rfl
  | cons kv rest ih =>
    obtain ⟨k, v⟩ := kv
    have ih2 : List.lookup key
        (List.filter (fun kv => !decide (kv.1 = pfx ++ id)) rest) = List.lookup key rest := by
      simpa [Cache.Deletes, Cache.Get] using ih
    by_cases hk : k = pfx ++ id
    · have hb : (key == k) = false := by
        simpa using fun e : key = k => h (e.trans hk)
      simp [Cache.Deletes, Cache.Get, List.filter_cons, hk, List.lookup_cons, ih2]
      rw [← hk, hb]
    · by_cases hk3 : key = k
      · simp [Cache.Deletes, Cache.Get, List.filter_cons, hk, hk3, List.lookup_cons]
      · have hb : (key == k) = false := by simpa using hk3
        simp [Cache.Deletes, Cache.Get, List.filter_cons, hk, List.lookup_cons, hb, ih2]

/-! ### `uploadCallbackCheck`, path by path -/

/-- Cache miss: the session-expired response, state untouched. -/
theorem uploadCallbackCheck_miss (E : Env) (s : State) (policyType : String)
    (hid : s.c.sessionID ≠ "")
    (hget : s.cache.Get (E.UploadSessionCachePrefix ++ s.c.sessionID) = none) :
    uploadCallbackCheck E s policyType
      = (Err E.CodeUploadSessionExpired (Msg.text "上传会话不存在或已过期") none, s) := by
  simp [uploadCallbackCheck, hid, hget]

/-- Policy-type mismatch: the policy-not-allowed response; only the session is put in the
context. -/
theorem uploadCallbackCheck_mismatch (E : Env) (s : State) (policyType : String)
    (session : UploadSession) (hid : s.c.sessionID ≠ "")
    (hget : s.cache.Get (E.UploadSessionCachePrefix ++ s.c.sessionID) = some session)
    (hty : session.Policy.Type_ ≠ policyType) :
    uploadCallbackCheck E s policyType
      = (Err E.CodePolicyNotAllowed (Msg.text "") none,
        { s with c := { s.c with uploadSession := some session } }) := by
  simp [uploadCallbackCheck, hid, hget, hty]

/-- Matching policy type, user lookup failed: the user-not-found response, session deleted. -/
theorem uploadCallbackCheck_no_user (E : Env) (s : State) (policyType : String)
    (session : UploadSession) (err : Error) (hid : s.c.sessionID ≠ "")
    (hget : s.cache.Get (E.UploadSessionCachePrefix ++ s.c.sessionID) = some session)
    (hty : session.Policy.Type_ = policyType)
    (huser : E.GetActiveUserByID session.UID = Except.error err) :
    uploadCallbackCheck E s policyType
      = (Err E.CodeUserNotFound (Msg.text "") (some err),
        { c := { s.c with uploadSession := some session },
          cache := s.cache.Deletes [s.c.sessionID] E.UploadSessionCachePrefix }) := by
  simp [uploadCallbackCheck, hid, hget, hty, huser]

/-- Matching policy type, active user: the empty response, session deleted, user bound. -/
theorem uploadCallbackCheck_ok (E : Env) (s : State) (policyType : String)
    (session : UploadSession) (user : User) (hid : s.c.sessionID ≠ "")
    (hget : s.cache.Get (E.UploadSessionCachePrefix ++ s.c.sessionID) = some session)
    (hty : session.Policy.Type_ = policyType)
    (huser : E.GetActiveUserByID session.UID = Except.ok user) :
    uploadCallbackCheck E s policyType
      = (Response.zero,
        { c := { s.c with uploadSession := some session, user := some user },
          cache := s.cache.Deletes [s.c.sessionID] E.UploadSessionCachePrefix }) := by
  simp [uploadCallbackCheck, hid, hget, hty, huser]

/-- C2: for a request that names a session (its `sessionID` is not empty) stored in the cache
under prefix ++ sessionID, whose policy type is the endpoint's and whose user is active,
`uploadCallbackCheck` answers with the empty response (code 0), and a second
`uploadCallbackCheck` with the same `sessionID`, on whatever context, run on the cache the
first one left, answers with the session-expired error `CodeUploadSessionExpired`. -/
theorem uploadCallbackCheck_consumes_once (E : Env) (s : State) (policyType : String)
    (session : UploadSession) (user : User) (c2 : Context)
    (hid : s.c.sessionID ≠ "")
    (hget : s.cache.Get (E.UploadSessionCachePrefix ++ s.c.sessionID) = some session)
    (hty : session.Policy.Type_ = policyType)
    (huser : E.GetActiveUserByID session.UID = Except.ok user)
    (hc2 : c2.sessionID = s.c.sessionID) :
    (uploadCallbackCheck E s policyType).1 = Response.zero ∧
    (uploadCallbackCheck E s policyType).1.Code = 0 ∧
    (uploadCallbackCheck E ⟨c2, (uploadCallbackCheck E s policyType).2.cache⟩ policyType).1
      = Err E.CodeUploadSessionExpired (Msg.text "上传会话不存在或已过期") none ∧
    (uploadCallbackCheck E ⟨c2, (uploadCallbackCheck E s policyType).2.cache⟩ policyType).1.Code
      = E.CodeUploadSessionExpired ∧
    (uploadCallbackCheck E (uploadCallbackCheck E s policyType).2 policyType).1.Code
      = E.CodeUploadSessionExpired := by
  have h1 := uploadCallbackCheck_ok E s policyType session user hid hget hty huser
  have hmiss : ∀ c : Context, c.sessionID = s.c.sessionID →
      uploadCallbackCheck E
        ⟨c, s.cache.Deletes [s.c.sessionID] E.UploadSessionCachePrefix⟩ policyType
      = (Err E.CodeUploadSessionExpired (Msg.text "上传会话不存在或已过期") none,
        ⟨c, s.cache.Deletes [s.c.sessionID] E.UploadSessionCachePrefix⟩) := by
    intro c hc
    apply uploadCallbackCheck_miss
    · simpa [hc] using hid
    · simpa [hc] using Cache.Get_Deletes_self s.cache s.c.sessionID E.UploadSessionCachePrefix
  rw [h1]
  refine ⟨rfl, rfl, ?_, ?_, ?_⟩
  · rw [hmiss c2 hc2]
  · rw [hmiss c2 hc2]; rfl
  · exact congrArg (fun r => r.1.Code)
      (hmiss { s.c with uploadSession := some session, user := some user } rfl)

/-- C2 on a sample: the session `abc` of the active user 7 at the `remote` endpoint. -/
theorem uploadCallbackCheck_consumes_once_witness :
    (uploadCallbackCheck sampleEnv (sampleState "secret") "remote").1.Code = 0 ∧
    (uploadCallbackCheck sampleEnv
      (uploadCallbackCheck sampleEnv (sampleState "secret") "remote").2 "remote").1.Code
      = 40011 :=
  ⟨(uploadCallbackCheck_consumes_once sampleEnv (sampleState "secret") "remote" sampleSession
      ⟨7⟩ (sampleState "secret").c (by decide) (by decide) rfl rfl rfl).2.1,
    (uploadCallbackCheck_consumes_once sampleEnv (sampleState "secret") "remote" sampleSession
      ⟨7⟩ (sampleState "secret").c (by decide) (by decide) rfl rfl rfl).2.2.2.2⟩

/-- C3, as stated, fails: at the `local` endpoint the lookup of the session `abc` (a `remote`
session) succeeds, the call is rejected on the policy type, and the session is still in the
cache afterwards: the type check precedes the deletion. -/
theorem uploadCallbackCheck_mismatch_keeps_session :
    (sampleState "secret").cache.Get ("callback_" ++ "abc") = some sampleSession ∧
    (uploadCallbackCheck sampleEnv (sampleState "secret") "local").1.Code
      = sampleEnv.CodePolicyNotAllowed ∧
    (uploadCallbackCheck sampleEnv (sampleState "secret") "local").2.cache.Get
      ("callback_" ++ "abc") = some sampleSession ∧
    ¬ ((uploadCallbackCheck sampleEnv (sampleState "secret") "local").2.cache.Get
      ("callback_" ++ "abc") = none) := by
  decide

/-- C3, amended: for a request with a non-empty `sessionID` whose session lookup succeeds,
when the session's policy type is the endpoint's, `uploadCallbackCheck` deletes the cached
session before it looks up the user: whether it answers with the empty response or with the
user-not-found error, the key is no longer in the cache afterwards.  When the policy type
differs, the call is rejected before the deletion and the cache is what it was. -/
theorem uploadCallbackCheck_deletes_after_type_check (E : Env) (s : State) (policyType : String)
    (session : UploadSession) (hid : s.c.sessionID ≠ "")
    (hget : s.cache.Get (E.UploadSessionCachePrefix ++ s.c.sessionID) = some session) :
    (session.Policy.Type_ = policyType →
      ((uploadCallbackCheck E s policyType).1 = Response.zero ∨
        ∃ err, (uploadCallbackCheck E s policyType).1
          = Err E.CodeUserNotFound (Msg.text "") (some err)) ∧
      (uploadCallbackCheck E s policyType).2.cache
        = s.cache.Deletes [s.c.sessionID] E.UploadSessionCachePrefix ∧
      (uploadCallbackCheck E s policyType).2.cache.Get
        (E.UploadSessionCachePrefix ++ s.c.sessionID) = none) ∧
    (session.Policy.Type_ ≠ policyType →
      (uploadCallbackCheck E s policyType).1 = Err E.CodePolicyNotAllowed (Msg.text "") none ∧
      (uploadCallbackCheck E s policyType).2.cache = s.cache) := by
  constructor
  · intro hty
    cases huser : E.GetActiveUserByID session.UID with
    | error err =>
      rw [uploadCallbackCheck_no_user E s policyType session err hid hget hty huser]
      exact ⟨Or.inr ⟨err, rfl⟩, rfl, Cache.Get_Deletes_self _ _ _⟩
    | ok user =>
      rw [uploadCallbackCheck_ok E s policyType session user hid hget hty huser]
      exact ⟨Or.inl rfl, rfl, Cache.Get_Deletes_self _ _ _⟩
  · intro hty
    rw [uploadCallbackCheck_mismatch E s policyType session hid hget hty]
    exact ⟨rfl, rfl⟩

/-- C3, amended, on a sample: the session `abc` at the `remote` endpoint. -/
theorem uploadCallbackCheck_deletes_after_type_check_witness :
    (uploadCallbackCheck sampleEnv (sampleState "secret") "remote").2.cache.Get
      (sampleEnv.UploadSessionCachePrefix ++ (sampleState "secret").c.sessionID) = none :=
  ((uploadCallbackCheck_deletes_after_type_check sampleEnv (sampleState "secret") "remote"
    sampleSession (by decide) (by decide)).1 rfl).2.2

/-- C4: for a request with a non-empty `sessionID` whose cached session has a policy type
other than the endpoint's, `uploadCallbackCheck` answers with the policy-not-allowed error
`CodePolicyNotAllowed`, which is not the code answered on a cache miss
(`CodeUploadSessionExpired`), binds no user to the context and leaves the cache alone; and
`UseUploadSession` writes that response under status 401 and aborts, whatever the rest of the
chain is: the callback handler is not run.  The two codes are constants of `serializer`, taken
as non-zero and different from each other. -/
theorem policy_type_mismatch_rejected (E : Env) (s : State) (policyType : String)
    (session : UploadSession) (next : Next) (hid : s.c.sessionID ≠ "")
    (hget : s.cache.Get (E.UploadSessionCachePrefix ++ s.c.sessionID) = some session)
    (hty : session.Policy.Type_ ≠ policyType)
    (hcode : E.CodePolicyNotAllowed ≠ 0)
    (hdistinct : E.CodePolicyNotAllowed ≠ E.CodeUploadSessionExpired) :
    (uploadCallbackCheck E s policyType).1 = Err E.CodePolicyNotAllowed (Msg.text "") none ∧
    (uploadCallbackCheck E s policyType).1.Code = E.CodePolicyNotAllowed ∧
    (∀ s0 : State, s0.c.sessionID ≠ "" →
      s0.cache.Get (E.UploadSessionCachePrefix ++ s0.c.sessionID) = none →
      (uploadCallbackCheck E s0 policyType).1.Code = E.CodeUploadSessionExpired ∧
      (uploadCallbackCheck E s policyType).1.Code
        ≠ (uploadCallbackCheck E s0 policyType).1.Code) ∧
    (uploadCallbackCheck E s policyType).2.c.user = s.c.user ∧
    (uploadCallbackCheck E s policyType).2.cache = s.cache ∧
    UseUploadSession E policyType next s
      = some { s with c := { s.c with
          uploadSession := some session,
          written := s.c.written ++ [(401, Err E.CodePolicyNotAllowed (Msg.text "") none)],
          aborted := true } } := by
  have h1 := uploadCallbackCheck_mismatch E s policyType session hid hget hty
  refine ⟨by rw [h1], by rw [h1]; rfl, ?_, by rw [h1], by rw [h1], ?_⟩
  · intro s0 hid0 hget0
    rw [uploadCallbackCheck_miss E s0 policyType hid0 hget0, h1]
    exact ⟨rfl, hdistinct⟩
  · have hc : ¬ (Err E.CodePolicyNotAllowed (Msg.text "") none).Code = 0 := hcode
    simp only [UseUploadSession, h1, ne_eq, hc, not_false_eq_true, if_true]
    rfl

/-- C4 on a sample: the `remote` session `abc` called back at the `local` endpoint. -/
theorem policy_type_mismatch_rejected_witness :
    (uploadCallbackCheck sampleEnv (sampleState "secret") "local").1.Code = 40006 ∧
    (UseUploadSession sampleEnv "local" sampleController (sampleState "secret")).map
        (fun r => (r.c.aborted, r.c.user, r.c.written.map Prod.fst, r.cache))
      = some (true, none, [401], [("callback_abc", sampleSession)]) :=
  ⟨(policy_type_mismatch_rejected sampleEnv (sampleState "secret") "local" sampleSession
      sampleController (by decide) (by decide) (by decide) (by decide) (by decide)).2.1,
    by
      rw [(policy_type_mismatch_rejected sampleEnv (sampleState "secret") "local" sampleSession
        sampleController (by decide) (by decide) (by decide) (by decide) (by decide)).2.2.2.2.2]
      rfl⟩

/-! ### Signature checks -/

/-- C5, as stated, fails: a callback for the session `abc` whose signature does not verify is
aborted by `RemoteCallbackAuth` under status 401 without the controller being run, but the
cache no longer holds the session, and the correctly signed callback that follows is answered
with the session-expired error. -/
theorem failed_signature_consumes_session :
    sampleEnv.CheckRequest ⟨sampleSession.Policy.SecretKey⟩ (sampleState "forged").c.Request
      = some (Error.foreign "invalid sign") ∧
    (UseUploadSession sampleEnv "remote" (RemoteCallbackAuth sampleEnv sampleController)
        (sampleState "forged")).map
        (fun r => (r.c.aborted, r.c.written.map Prod.fst, r.cache))
      = some (true, [401], []) ∧
    ¬ ((UseUploadSession sampleEnv "remote" (RemoteCallbackAuth sampleEnv sampleController)
        (sampleState "forged")).map (fun r => r.cache)
      = some (sampleState "forged").cache) ∧
    (UseUploadSession sampleEnv "remote" (RemoteCallbackAuth sampleEnv sampleController)
        { sampleState "secret" with cache := [] }).map
        (fun r => (r.c.aborted, r.c.written.map (fun w => (w.1, w.2.Code))))
      = some (true, [(401, 40011)]) ∧
    (UseUploadSession sampleEnv "remote" (RemoteCallbackAuth sampleEnv sampleController)
        (sampleState "secret")).map
        (fun r => (r.c.aborted, r.c.written.map (fun w => (w.1, w.2.Code))))
      = some (false, [(200, 0)]) := by
  decide

/-- C5, amended: for a request with a non-empty `sessionID` whose session is cached under a
matching policy type with an active user, and whose signature does not verify against the
session's secret, the chain `UseUploadSession`, `RemoteCallbackAuth` aborts under status 401
with the credential-invalid body and never runs the rest of the chain; the cache afterwards is
the cache before with that session deleted (every other key is as before), so a later callback
for the same session, whatever its signature, is answered with the session-expired error. -/
theorem failed_signature_effect (E : Env) (s : State) (policyType : String)
    (session : UploadSession) (user : User) (err : Error) (next : Next) (c2 : Context)
    (hid : s.c.sessionID ≠ "")
    (hget : s.cache.Get (E.UploadSessionCachePrefix ++ s.c.sessionID) = some session)
    (hty : session.Policy.Type_ = policyType)
    (huser : E.GetActiveUserByID session.UID = Except.ok user)
    (hsig : E.CheckRequest ⟨session.Policy.SecretKey⟩ s.c.Request = some err)
    (hc2 : c2.sessionID = s.c.sessionID) :
    UseUploadSession E policyType (RemoteCallbackAuth E next) s
      = some
        { c := { s.c with
            uploadSession := some session,
            user := some user,
            written := s.c.written
              ++ [(401, Err E.CodeCredentialInvalid (Msg.errorText err) (some err))],
            aborted := true },
          cache := s.cache.Deletes [s.c.sessionID] E.UploadSessionCachePrefix } ∧
    (s.cache.Deletes [s.c.sessionID] E.UploadSessionCachePrefix).Get
      (E.UploadSessionCachePrefix ++ s.c.sessionID) = none ∧
    (∀ key, key ≠ E.UploadSessionCachePrefix ++ s.c.sessionID →
      (s.cache.Deletes [s.c.sessionID] E.UploadSessionCachePrefix).Get key = s.cache.Get key) ∧
    (uploadCallbackCheck E
        ⟨c2, s.cache.Deletes [s.c.sessionID] E.UploadSessionCachePrefix⟩ policyType).1
      = Err E.CodeUploadSessionExpired (Msg.text "上传会话不存在或已过期") none := by
  have h1 := uploadCallbackCheck_ok E s policyType session user hid hget hty huser
  refine ⟨?_, Cache.Get_Deletes_self _ _ _, fun key hk => Cache.Get_Deletes_other _ _ _ _ hk, ?_⟩
  · have hz : Response.zero.Code = 0 := rfl
    simp only [UseUploadSession, h1, hz, ne_eq, not_true_eq_false, if_false, RemoteCallbackAuth,
      hsig]
    rfl
  · have hm := uploadCallbackCheck_miss E
      ⟨c2, s.cache.Deletes [s.c.sessionID] E.UploadSessionCachePrefix⟩ policyType
      (by simpa [hc2] using hid)
      (by simpa [hc2] using
        (Cache.Get_Deletes_self s.cache s.c.sessionID E.UploadSessionCachePrefix))
    rw [hm]

/-- C5, amended, on a sample: the forged callback for the session `abc`, then the signed one. -/
theorem failed_signature_effect_witness :
    (UseUploadSession sampleEnv "remote" (RemoteCallbackAuth sampleEnv sampleController)
        (sampleState "forged")).map (fun r => r.cache) = some [] ∧
    (uploadCallbackCheck sampleEnv
        ⟨(sampleState "secret").c,
          (sampleState "forged").cache.Deletes [(sampleState "forged").c.sessionID]
            sampleEnv.UploadSessionCachePrefix⟩ "remote").1.Code = 40011 :=
  ⟨by
      rw [(failed_signature_effect sampleEnv (sampleState "forged") "remote" sampleSession ⟨7⟩
        (Error.foreign "invalid sign") sampleController (sampleState "secret").c
        (by decide) (by decide) rfl rfl (by decide) rfl).1]
      decide,
    by
      rw [(failed_signature_effect sampleEnv (sampleState "forged") "remote" sampleSession ⟨7⟩
        (Error.foreign "invalid sign") sampleController (sampleState "secret").c
        (by decide) (by decide) rfl rfl (by decide) rfl).2.2.2]
      rfl⟩

/-- C6, as stated, fails: on a failed signature check `SignRequired` aborts and answers with
the credential-invalid body, but under HTTP status 200, not 401. -/
theorem SignRequired_answers_status_200 :
    sampleEnv.CheckRequest ⟨"secret"⟩ (sampleState "forged").c.Request
      = some (Error.foreign "invalid sign") ∧
    (SignRequired sampleEnv ⟨"secret"⟩ sampleController (sampleState "forged")).map
        (fun r => (r.c.aborted, r.c.written.map (fun w => (w.1, w.2.Code))))
      = some (true, [(200, sampleEnv.CodeCredentialInvalid)]) ∧
    ¬ ((SignRequired sampleEnv ⟨"secret"⟩ sampleController (sampleState "forged")).map
        (fun r => r.c.written.map Prod.fst) = some [401]) := by
  decide

/-- C6, amended: when the signature check returns an error, `SignRequired` (the check being
`CheckRequest` for the methods PUT, POST and PATCH and `CheckURI` otherwise) and
`RemoteCallbackAuth` (on a context that holds the upload session, the check being against the
session's secret) both abort without running the rest of the chain and answer with a body
carrying `CodeCredentialInvalid`; `RemoteCallbackAuth` answers under HTTP status 401,
`SignRequired` under HTTP status 200. -/
theorem signature_check_fails_closed (E : Env) (s : State) (authInstance : Auth)
    (session : UploadSession) (err : Error) (next : Next) :
    ((if s.c.Request.Method = "PUT" ∨ s.c.Request.Method = "POST"
          ∨ s.c.Request.Method = "PATCH" then
        E.CheckRequest authInstance s.c.Request
      else E.CheckURI authInstance s.c.Request.URL) = some err →
      SignRequired E authInstance next s
        = some { s with c := { s.c with
            written := s.c.written
              ++ [(200, Err E.CodeCredentialInvalid (Msg.errorText err) (some err))],
            aborted := true } }) ∧
    (s.c.uploadSession = some session →
      E.CheckRequest ⟨session.Policy.SecretKey⟩ s.c.Request = some err →
      RemoteCallbackAuth E next s
        = some { s with c := { s.c with
            written := s.c.written
              ++ [(401, Err E.CodeCredentialInvalid (Msg.errorText err) (some err))],
            aborted := true } }) ∧
    (Err E.CodeCredentialInvalid (Msg.errorText err) (some err)).Code
      = E.CodeCredentialInvalid := by
  refine ⟨?_, ?_, rfl⟩
  · intro hsig
    simp only [SignRequired, hsig]
    rfl
  · intro hsess hsig
    simp [RemoteCallbackAuth, hsess, hsig, State.JSON, State.Abort, CallbackFailedStatusCode]

/-- C6, amended, on a sample: a forged POST through `SignRequired`, and through
`RemoteCallbackAuth` once the session is in the context. -/
theorem signature_check_fails_closed_witness :
    (SignRequired sampleEnv ⟨"secret"⟩ sampleController (sampleState "forged")).map
        (fun r => (r.c.aborted, r.c.written.map (fun w => (w.1, w.2.Code))))
      = some (true, [(200, 40020)]) ∧
    (RemoteCallbackAuth sampleEnv sampleController
        { sampleState "forged" with
          c := { (sampleState "forged").c with uploadSession := some sampleSession } }).map
        (fun r => (r.c.aborted, r.c.written.map (fun w => (w.1, w.2.Code))))
      = some (true, [(401, 40020)]) :=
  ⟨by
      rw [(signature_check_fails_closed sampleEnv (sampleState "forged") ⟨"secret"⟩ sampleSession
        (Error.foreign "invalid sign") sampleController).1 (by decide)]
      rfl,
    by
      rw [(signature_check_fails_closed sampleEnv
        { sampleState "forged" with
          c := { (sampleState "forged").c with uploadSession := some sampleSession } }
        ⟨"secret"⟩ sampleSession (Error.foreign "invalid sign") sampleController).2.1 rfl
        (by decide)]
      rfl⟩

/-! ### Hook registration -/

/-- Looking up the key whose entry `Use` extends. -/
theorem lookup_map_extend_same (name : String) (hook : Hook) (l : List (String × List Hook))
    (x : List Hook) (h : l.lookup name = some x) :
    (l.map (fun kv => if kv.1 = name then (kv.1, kv.2 ++ [hook]) else kv)).lookup name
      = some (x ++ [hook]) := by
  induction l with
  | nil => simp at h
  | cons kv rest ih =>
    obtain ⟨k, v⟩ := kv
    by_cases hk : k = name
    · subst hk
      simp [List.lookup_cons] at h ⊢
      exact h
    · have hb : (name == k) = false := by simpa using fun e : name = k => hk e.symm
      simp only [List.lookup_cons, hb] at h
      simp only [List.map_cons, hk, if_false, List.lookup_cons, hb]
      exact ih h

/-- Looking up another key after `Use` has extended an entry. -/
theorem lookup_map_extend_other (name other : String) (hook : Hook)
    (l : List (String × List Hook)) (h : other ≠ name) :
    (l.map (fun kv => if kv.1 = name then (kv.1, kv.2 ++ [hook]) else kv)).lookup other
      = l.lookup other := by
  induction l with
  | nil => rfl
  | cons kv rest ih =>
    obtain ⟨k, v⟩ := kv
    by_cases hk : k = name
    · subst hk
      have hb : (other == k) = false := by simpa using h
      simp only [List.map_cons, if_true, List.lookup_cons, hb]
      exact ih
    · by_cases ho : other = k
      · subst ho
        simp [List.lookup_cons, hk]
      · have hb : (other == k) = false := by simpa using ho
        simp only [List.map_cons, hk, if_false, List.lookup_cons, hb]
        exact ih

/-- Looking up a key in a map to which `Use` has added an entry at the end. -/
theorem lookup_append_entry (name other : String) (hook : Hook)
    (l : List (String × List Hook)) :
    (l ++ [(name, [hook])]).lookup other
      = match l.lookup other with
        | some x => some x
        | none => if other = name then some [hook] else none := by
  induction l with
  | nil =>
    by_cases h : other = name
    · simp [List.lookup_cons, h]
    · have hb : (other == name) = false := by simpa using h
      simp [List.lookup_cons, h, hb]
  | cons kv rest ih =>
    obtain ⟨k, v⟩ := kv
    by_cases ho : other = k
    · subst ho
      simp [List.lookup_cons]
    · have hb : (other == k) = false := by simpa using ho
      simp only [List.cons_append, List.lookup_cons, hb]
      exact ih

/-- `Use` at a point that has no entry yet. -/
theorem Use_of_lookup_none {W : Type} (fs : FileSystem W) (name : String) (hook : Hook)
    (h : (fs.Hooks.getD []).lookup name = none) :
    fs.Use name hook = { fs with Hooks := some (fs.Hooks.getD [] ++ [(name, [hook])]) } := by
  simp [FileSystem.Use, h]

/-- `Use` at a point that has an entry. -/
theorem Use_of_lookup_some {W : Type} (fs : FileSystem W) (name : String) (hook : Hook)
    (x : List Hook) (h : (fs.Hooks.getD []).lookup name = some x) :
    fs.Use name hook
      = { fs with Hooks := some ((fs.Hooks.getD []).map (fun kv =>
          if kv.1 = name then (kv.1, kv.2 ++ [hook]) else kv)) } := by
  simp [FileSystem.Use, h]

/-- `Use` puts the hook after the hooks already registered at its point. -/
theorem hooksAt_Use_same {W : Type} (fs : FileSystem W) (name : String) (hook : Hook) :
    (fs.Use name hook).hooksAt name = fs.hooksAt name ++ [hook] := by
  cases h : (fs.Hooks.getD []).lookup name with
  | none =>
    rw [Use_of_lookup_none fs name hook h]
    simp [FileSystem.hooksAt, lookup_append_entry, h]
  | some x =>
    rw [Use_of_lookup_some fs name hook x h]
    simp [FileSystem.hooksAt, lookup_map_extend_same name hook _ x h, h]

/-- `Use` leaves the other points as they are. -/
theorem hooksAt_Use_other {W : Type} (fs : FileSystem W) (name other : String) (hook : Hook)
    (h : other ≠ name) : (fs.Use name hook).hooksAt other = fs.hooksAt other := by
  cases hl : (fs.Hooks.getD []).lookup name with
  | none =>
    rw [Use_of_lookup_none fs name hook hl]
    simp only [FileSystem.hooksAt, Option.getD_some, lookup_append_entry, h, if_false]
    cases (fs.Hooks.getD []).lookup other <;> rfl
  | some x =>
    rw [Use_of_lookup_some fs name hook x hl]
    simp [FileSystem.hooksAt, lookup_map_extend_other name other hook _ h]

/-- `Use` touches the field `Hooks` only. -/
theorem Use_fields {W : Type} (fs : FileSystem W) (name : String) (hook : Hook) :
    ∃ hooks, fs.Use name hook = { fs with Hooks := some hooks } := by
  cases h : (fs.Hooks.getD []).lookup name with
  | none => exact ⟨_, Use_of_lookup_none fs name hook h⟩
  | some x => exact ⟨_, Use_of_lookup_some fs name hook x h⟩

/-- The registrations of `ProcessCallback` touch the field `Hooks` only. -/
theorem ProcessCallback_hooks_fields {W : Type} (K : CallbackEnv W) (mem : Mem)
    (policy : PolicyPtr) (callbackBody : UploadCallback) (fs : FileSystem W) :
    ∃ hooks, ProcessCallback.hooks K mem policy callbackBody fs = { fs with Hooks := some hooks } := by
  unfold ProcessCallback.hooks
  cases K.IsUploadPlaceholderWithSize mem policy
  · obtain ⟨h1, e1⟩ := Use_fields fs "AfterUpload" Hook.HookValidateCapacity
    obtain ⟨h2, e2⟩ := Use_fields (fs.Use "AfterUpload" Hook.HookValidateCapacity) "AfterUpload"
      Hook.HookChunkUploaded
    obtain ⟨h3, e3⟩ := Use_fields
      ((fs.Use "AfterUpload" Hook.HookValidateCapacity).Use "AfterUpload" Hook.HookChunkUploaded)
      "AfterUpload" (Hook.HookPopPlaceholderToFile callbackBody.PicInfo)
    obtain ⟨h4, e4⟩ := Use_fields
      (((fs.Use "AfterUpload" Hook.HookValidateCapacity).Use "AfterUpload"
        Hook.HookChunkUploaded).Use "AfterUpload"
        (Hook.HookPopPlaceholderToFile callbackBody.PicInfo))
      "AfterValidateFailed" Hook.HookDeleteTempFile
    refine ⟨h4, ?_⟩
    simp only [Bool.not_false, if_true]
    rw [e4, e3, e2, e1]
  · obtain ⟨h3, e3⟩ := Use_fields fs "AfterUpload"
      (Hook.HookPopPlaceholderToFile callbackBody.PicInfo)
    obtain ⟨h4, e4⟩ := Use_fields
      (fs.Use "AfterUpload" (Hook.HookPopPlaceholderToFile callbackBody.PicInfo))
      "AfterValidateFailed" Hook.HookDeleteTempFile
    refine ⟨h4, ?_⟩
    simp only [Bool.not_true, Bool.false_eq_true, if_false]
    rw [e4, e3]

/-- The hooks at `AfterUpload` after the registrations of `ProcessCallback`. -/
theorem ProcessCallback_hooks_AfterUpload {W : Type} (K : CallbackEnv W) (mem : Mem)
    (policy : PolicyPtr) (callbackBody : UploadCallback) (fs : FileSystem W) :
    (ProcessCallback.hooks K mem policy callbackBody fs).hooksAt "AfterUpload"
      = fs.hooksAt "AfterUpload" ++
        (if K.IsUploadPlaceholderWithSize mem policy then
          [Hook.HookPopPlaceholderToFile callbackBody.PicInfo]
        else
          [Hook.HookValidateCapacity, Hook.HookChunkUploaded,
            Hook.HookPopPlaceholderToFile callbackBody.PicInfo]) := by
  unfold ProcessCallback.hooks
  have hne : "AfterUpload" ≠ "AfterValidateFailed" := by decide
  cases K.IsUploadPlaceholderWithSize mem policy
  · simp only [Bool.not_false, if_true, Bool.false_eq_true, if_false]
    rw [hooksAt_Use_other _ _ _ _ hne, hooksAt_Use_same, hooksAt_Use_same, hooksAt_Use_same]
    simp
  · simp only [Bool.not_true, Bool.false_eq_true, if_false, if_true]
    rw [hooksAt_Use_other _ _ _ _ hne, hooksAt_Use_same]

/-- The hooks at `AfterValidateFailed` after the registrations of `ProcessCallback`. -/
theorem ProcessCallback_hooks_AfterValidateFailed {W : Type} (K : CallbackEnv W) (mem : Mem)
    (policy : PolicyPtr) (callbackBody : UploadCallback) (fs : FileSystem W) :
    (ProcessCallback.hooks K mem policy callbackBody fs).hooksAt "AfterValidateFailed"
      = fs.hooksAt "AfterValidateFailed" ++ [Hook.HookDeleteTempFile] := by
  unfold ProcessCallback.hooks
  have hne : "AfterValidateFailed" ≠ "AfterUpload" := by decide
  cases K.IsUploadPlaceholderWithSize mem policy
  · simp only [Bool.not_false, if_true]
    rw [hooksAt_Use_same, hooksAt_Use_other _ _ _ _ hne, hooksAt_Use_other _ _ _ _ hne,
      hooksAt_Use_other _ _ _ _ hne]
  · simp only [Bool.not_true, Bool.false_eq_true, if_false]
    rw [hooksAt_Use_same, hooksAt_Use_other _ _ _ _ hne]

/-! ### The constructors of `FileSystem` -/

/-- `DispatchHandler` assigns no field but `Handler`. -/
theorem DispatchHandler_fields {W : Type} (D : Drivers W) (mem : Mem) (fs : FileSystem W) :
    (DispatchHandler D mem fs).1 = fs ∨
    ∃ h, (DispatchHandler D mem fs).1 = { fs with Handler := some h } := by
  unfold DispatchHandler
  cases fs.Policy with
  | none => exact Or.inl rfl
  | some p =>
    simp only
    split
    · exact Or.inl rfl
    · split
      · exact Or.inr ⟨_, rfl⟩
      · split
        · cases D.remoteNewDriver mem p with
          | error e => exact Or.inl rfl
          | ok h => exact Or.inr ⟨h, rfl⟩
        · exact Or.inl rfl

/-- What `DispatchHandler` keeps of a file system. -/
theorem DispatchHandler_keeps {W : Type} (D : Drivers W) (mem : Mem) (fs : FileSystem W) :
    (DispatchHandler D mem fs).1.User = fs.User ∧
    (DispatchHandler D mem fs).1.Policy = fs.Policy ∧
    (DispatchHandler D mem fs).1.Hooks = fs.Hooks ∧
    (DispatchHandler D mem fs).1.recycleLock = fs.recycleLock ∧
    (DispatchHandler D mem fs).1.reset = fs.reset := by
  rcases DispatchHandler_fields D mem fs with h | ⟨x, h⟩ <;> rw [h] <;>
    exact ⟨rfl, rfl, rfl, rfl, rfl⟩

/-- A file system made by `NewFileSystemFromContext` without error: its user is the user of the
context, or the zero user when the context has none; its hooks and its recycle lock are those
of the instance taken from the pool. -/
theorem NewFileSystemFromContext_created {W : Type} (D : Drivers W) (K : CallbackEnv W)
    (c : Context) (mem : Mem) (pool : Pool W)
    (herr : (NewFileSystemFromContext D K c mem pool).err = none) :
    ∃ fs user, (NewFileSystemFromContext D K c mem pool).fs = some fs ∧
      fs.User = some user ∧ (c.user = some user ∨ (c.user = none ∧ user = ⟨0⟩)) ∧
      fs.Hooks = (getEmptyFS pool).1.Hooks ∧
      fs.recycleLock = (getEmptyFS pool).1.recycleLock ∧
      (NewFileSystemFromContext D K c mem pool).pool = (getEmptyFS pool).2 ∧
      (NewFileSystemFromContext D K c mem pool).mem = mem := by
  unfold NewFileSystemFromContext at herr ⊢
  cases hu : c.user with
  | some user =>
    simp only [hu] at herr ⊢
    obtain ⟨h1, _, h3, h4, _⟩ := DispatchHandler_keeps D mem
      { (getEmptyFS pool).1 with User := some user, Policy := some (K.userPolicy user) }
    exact ⟨_, user, rfl, h1, Or.inl rfl, h3, h4, rfl, rfl⟩
  | none =>
    simp only [hu] at herr ⊢
    unfold NewAnonymousFileSystem at herr ⊢
    by_cases hm : K.Mode = "master"
    · simp only [hm, if_true] at herr ⊢
      cases hg : K.GetGroupByID 3 with
      | some e => simp [hg] at herr
      | none =>
        refine ⟨{ (getEmptyFS pool).1 with User := some ⟨0⟩ }, ⟨0⟩, ?_, ?_, ?_, ?_, ?_, ?_, ?_⟩ <;>
          first | rfl | simp [hg]
    · simp only [hm, if_false] at herr ⊢
      refine ⟨{ (getEmptyFS pool).1 with
          User := some ⟨0⟩, Handler := some (D.localDriver none) }, ⟨0⟩,
        ?_, ?_, ?_, ?_, ?_, ?_, ?_⟩ <;> first | rfl | simp

/-- A file system made by `NewFileSystemFromCallback` without error: the context holds an
upload session, the policy is the session's, and user, hooks and recycle lock are as
`NewFileSystemFromContext` left them. -/
theorem NewFileSystemFromCallback_created {W : Type} (D : Drivers W) (K : CallbackEnv W)
    (c : Context) (mem : Mem) (pool : Pool W) (r : NewFS W)
    (hnew : NewFileSystemFromCallback D K c mem pool = some r) (herr : r.err = none) :
    ∃ fs user session, r.fs = some fs ∧ c.uploadSession = some session ∧
      fs.User = some user ∧ (c.user = some user ∨ (c.user = none ∧ user = ⟨0⟩)) ∧
      fs.Policy = some K.sessionPolicy ∧
      fs.Hooks = (getEmptyFS pool).1.Hooks ∧
      fs.recycleLock = (getEmptyFS pool).1.recycleLock ∧
      r.pool = (getEmptyFS pool).2 ∧
      r.mem = Function.update mem K.sessionPolicy session.Policy := by
  unfold NewFileSystemFromCallback at hnew
  cases he : (NewFileSystemFromContext D K c mem pool).err with
  | some e =>
    simp only [he] at hnew
    cases hnew
    simp at herr
  | none =>
    obtain ⟨fs0, user, hfs0, hu, hcu, hh, hl, hp, hm⟩ :=
      NewFileSystemFromContext_created D K c mem pool he
    simp only [he] at hnew
    cases hs : c.uploadSession with
    | none =>
      simp only [hs] at hnew
      cases hnew
      simp at herr
    | some session =>
      simp only [hs, hfs0, Option.some.injEq] at hnew
      subst hnew
      obtain ⟨h1, h2, h3, h4, _⟩ := DispatchHandler_keeps D
        (Function.update (NewFileSystemFromContext D K c mem pool).mem K.sessionPolicy
          session.Policy)
        { fs0 with Policy := some K.sessionPolicy }
      refine ⟨_, user, session, rfl, rfl, ?_, hcu, ?_, ?_, ?_, hp, ?_⟩
      · exact h1.trans hu
      · exact h2
      · exact h3.trans hh
      · exact h4.trans hl
      · simp only [hm]

/-! ### `ProcessCallback`, path by path -/

/-- The deferred `Recycle` of an instance whose recycle lock is free. -/
theorem ProcessCallback_ret_free {W : Type} (fs : FileSystem W) (pool : Pool W)
    (resp : Response) (w : W) (hlock : fs.recycleLock.locked = false) :
    ProcessCallback.ret fs pool resp w
      = some { resp := resp, world := w, atReturn := some fs, pool := fs.reset :: pool } := by
  simp [ProcessCallback.ret, FileSystem.Recycle, hlock, reset_recycleLock]

/-- The placeholder lookup failed: the session-expired response; the world and the file system
are as the constructor left them. -/
theorem ProcessCallback_lookup_failed {W : Type} (D : Drivers W) (E : Env) (K : CallbackEnv W)
    (service : RemoteUploadCallbackService) (c : Context) (mem : Mem) (pool : Pool W) (w : W)
    (r : NewFS W) (fs : FileSystem W) (user : User) (session : UploadSession) (err : Error)
    (hnew : NewFileSystemFromCallback D K c mem pool = some r) (herr : r.err = none)
    (hfs : r.fs = some fs) (huser : fs.User = some user)
    (hsess : c.uploadSession = some session)
    (hlock : fs.recycleLock.locked = false)
    (hfile : K.GetFilesByUploadSession session.Key user.ID = Except.error err) :
    ProcessCallback D E K service c mem pool w
      = some { resp := Err E.CodeUploadSessionExpired
                 (Msg.text "LocalUpload session file placeholder not exist") (some err),
               world := w, atReturn := some fs, pool := fs.reset :: r.pool } := by
  simp only [ProcessCallback, hnew, herr, hfs, hsess, huser, hfile]
  exact ProcessCallback_ret_free fs r.pool _ w hlock

/-- The placeholder was found: the hooks are registered, `Upload` runs on the file system that
carries them, and the response follows its `error`. -/
theorem ProcessCallback_upload_path {W : Type} (D : Drivers W) (E : Env) (K : CallbackEnv W)
    (service : RemoteUploadCallbackService) (c : Context) (mem : Mem) (pool : Pool W) (w : W)
    (r : NewFS W) (fs : FileSystem W) (user : User) (session : UploadSession) (file : File)
    (hnew : NewFileSystemFromCallback D K c mem pool = some r) (herr : r.err = none)
    (hfs : r.fs = some fs) (huser : fs.User = some user)
    (hsess : c.uploadSession = some session)
    (hlock : fs.recycleLock.locked = false)
    (hfile : K.GetFilesByUploadSession session.Key user.ID = Except.ok file) :
    ProcessCallback D E K service c mem pool w
      = some
        { resp :=
            match (K.Upload (ProcessCallback.hooks K r.mem K.sessionPolicy service.GetBody fs)
              ⟨session, WriteMode.Nop, file⟩ w).2 with
            | some uerr => Err K.CodeUploadFailed (Msg.errorText uerr) (some uerr)
            | none => Response.zero,
          world := (K.Upload (ProcessCallback.hooks K r.mem K.sessionPolicy service.GetBody fs)
            ⟨session, WriteMode.Nop, file⟩ w).1,
          atReturn := some (ProcessCallback.hooks K r.mem K.sessionPolicy service.GetBody fs),
          pool := fs.reset :: r.pool } := by
  obtain ⟨fs1, _, _, hfs1, _, _, _, hpol, _, _, _, _⟩ :=
    NewFileSystemFromCallback_created D K c mem pool r hnew herr
  have hfs_eq : fs1 = fs := Option.some.inj (hfs1.symm.trans hfs)
  subst hfs_eq
  obtain ⟨hooks, hh⟩ := ProcessCallback_hooks_fields K r.mem K.sessionPolicy service.GetBody fs1
  have hlock2 : (ProcessCallback.hooks K r.mem K.sessionPolicy service.GetBody fs1).recycleLock.locked
      = false := by rw [hh]; exact hlock
  have hreset : (ProcessCallback.hooks K r.mem K.sessionPolicy service.GetBody fs1).reset
      = fs1.reset := by rw [hh]; rfl
  simp only [ProcessCallback, hnew, herr, hfs, hsess, huser, hfile, hpol]
  cases hu : (K.Upload (ProcessCallback.hooks K r.mem K.sessionPolicy service.GetBody fs1)
      ⟨session, WriteMode.Nop, file⟩ w).2 with
  | none =>
    simp only []
    rw [ProcessCallback_ret_free _ r.pool _ _ hlock2, hreset]
  | some uerr =>
    simp only []
    rw [ProcessCallback_ret_free _ r.pool _ _ hlock2, hreset]

/-- C11: in `ProcessCallback`, for a file system that comes out of `NewFileSystemFromCallback`
with no hooks and a placeholder file that is found, `Upload` is invoked on a file system whose
`AfterUpload` hooks are exactly `HookValidateCapacity`, `HookChunkUploaded`,
`HookPopPlaceholderToFile` in that order when the session policy does not pre-deduct
(`IsUploadPlaceholderWithSize` is false), exactly `HookPopPlaceholderToFile` when it does, and
whose `AfterValidateFailed` hooks are exactly `HookDeleteTempFile` in both cases. -/
theorem ProcessCallback_hook_lists {W : Type} (D : Drivers W) (E : Env) (K : CallbackEnv W)
    (service : RemoteUploadCallbackService) (c : Context) (mem : Mem) (pool : Pool W) (w : W)
    (r : NewFS W) (fs : FileSystem W) (user : User) (session : UploadSession) (file : File)
    (hnew : NewFileSystemFromCallback D K c mem pool = some r) (herr : r.err = none)
    (hfs : r.fs = some fs) (huser : fs.User = some user)
    (hsess : c.uploadSession = some session)
    (hlock : fs.recycleLock.locked = false)
    (hfile : K.GetFilesByUploadSession session.Key user.ID = Except.ok file)
    (hnohooks : ∀ name, fs.hooksAt name = []) :
    ∃ fsU : FileSystem W,
      (K.IsUploadPlaceholderWithSize r.mem K.sessionPolicy = false →
        fsU.hooksAt "AfterUpload"
          = [Hook.HookValidateCapacity, Hook.HookChunkUploaded,
              Hook.HookPopPlaceholderToFile service.Data.PicInfo]) ∧
      (K.IsUploadPlaceholderWithSize r.mem K.sessionPolicy = true →
        fsU.hooksAt "AfterUpload" = [Hook.HookPopPlaceholderToFile service.Data.PicInfo]) ∧
      fsU.hooksAt "AfterValidateFailed" = [Hook.HookDeleteTempFile] ∧
      ProcessCallback D E K service c mem pool w
        = some
          { resp :=
              match (K.Upload fsU ⟨session, WriteMode.Nop, file⟩ w).2 with
              | some uerr => Err K.CodeUploadFailed (Msg.errorText uerr) (some uerr)
              | none => Response.zero,
            world := (K.Upload fsU ⟨session, WriteMode.Nop, file⟩ w).1,
            atReturn := some fsU,
            pool := fs.reset :: r.pool } := by
  refine ⟨ProcessCallback.hooks K r.mem K.sessionPolicy service.GetBody fs, ?_, ?_, ?_, ?_⟩
  · intro hp
    rw [ProcessCallback_hooks_AfterUpload, hnohooks, hp]
    rfl
  · intro hp
    rw [ProcessCallback_hooks_AfterUpload, hnohooks, hp]
    rfl
  · rw [ProcessCallback_hooks_AfterValidateFailed, hnohooks]
    rfl
  · exact ProcessCallback_upload_path D E K service c mem pool w r fs user session file
      hnew herr hfs huser hsess hlock hfile

/-- C11 on a sample: the callback of the session `abc` under a policy that does not
pre-deduct; the upload logs the names of the hooks it finds at the two points. -/
theorem ProcessCallback_hook_lists_witness :
    (ProcessCallback sampleDrivers sampleEnv (sampleCallbackEnv false none) sampleService
        (sampleCallbackContext sampleSession) (sampleMem "local") [] []).map
        (fun res => (res.resp.Code, res.world))
      = some (0, ["HookValidateCapacity", "HookChunkUploaded", "HookPopPlaceholderToFile", "|",
          "HookDeleteTempFile"]) := by
  obtain ⟨fsU, h1, _, h3, h4⟩ :=
    ProcessCallback_hook_lists sampleDrivers sampleEnv (sampleCallbackEnv false none)
      sampleService (sampleCallbackContext sampleSession) (sampleMem "local") [] []
      (sampleNewFS sampleSession) sampleCallbackFS ⟨7⟩ sampleSession ⟨9, "a.txt"⟩
      (by simp [NewFileSystemFromCallback, NewFileSystemFromContext, NewFileSystem, getEmptyFS,
        DispatchHandler, sampleCallbackContext, sampleCallbackEnv, sampleMem, sampleDrivers,
        sampleSession, sampleNewFS, sampleCallbackFS, FileSystem.empty])
      rfl rfl rfl rfl rfl (by simp [sampleCallbackEnv, sampleSession]) (fun _ => rfl)
  rw [h4]
  simp [sampleCallbackEnv, h1 rfl, h3, sampleHookName, Response.zero]

/-- C12: in `ProcessCallback`, once the file system is made, when the placeholder lookup by
session key and user id fails the response is the error `CodeUploadSessionExpired` (a non-zero
code), the world is untouched and the file system at return is the one the constructor made
(no hook registered), whatever `Upload` is: it is not invoked.  When the placeholder is found
and `Upload` returns an error, the response carries `CodeUploadFailed` (a non-zero code) and
is not the empty response.  The two codes are constants of `serializer`, taken as non-zero. -/
theorem ProcessCallback_failures {W : Type} (D : Drivers W) (E : Env) (K : CallbackEnv W)
    (service : RemoteUploadCallbackService) (c : Context) (mem : Mem) (pool : Pool W) (w : W)
    (r : NewFS W) (fs : FileSystem W) (user : User) (session : UploadSession)
    (hnew : NewFileSystemFromCallback D K c mem pool = some r) (herr : r.err = none)
    (hfs : r.fs = some fs) (huser : fs.User = some user)
    (hsess : c.uploadSession = some session)
    (hlock : fs.recycleLock.locked = false)
    (hexpired : E.CodeUploadSessionExpired ≠ 0) (hfailed : K.CodeUploadFailed ≠ 0) :
    (∀ err, K.GetFilesByUploadSession session.Key user.ID = Except.error err →
      (∀ U : FileSystem W → FileStream → W → W × Option Error,
        ProcessCallback D E { K with Upload := U } service c mem pool w
          = some { resp := Err E.CodeUploadSessionExpired
                     (Msg.text "LocalUpload session file placeholder not exist") (some err),
                   world := w, atReturn := some fs, pool := fs.reset :: r.pool }) ∧
      (Err E.CodeUploadSessionExpired
        (Msg.text "LocalUpload session file placeholder not exist") (some err)).Code ≠ 0) ∧
    (∀ file uerr, K.GetFilesByUploadSession session.Key user.ID = Except.ok file →
      (K.Upload (ProcessCallback.hooks K r.mem K.sessionPolicy service.GetBody fs)
        ⟨session, WriteMode.Nop, file⟩ w).2 = some uerr →
      (ProcessCallback D E K service c mem pool w).map (fun res => res.resp)
        = some (Err K.CodeUploadFailed (Msg.errorText uerr) (some uerr)) ∧
      (Err K.CodeUploadFailed (Msg.errorText uerr) (some uerr)).Code ≠ 0 ∧
      Err K.CodeUploadFailed (Msg.errorText uerr) (some uerr) ≠ Response.zero) := by
  constructor
  · intro err hfile
    refine ⟨fun U => ?_, hexpired⟩
    exact ProcessCallback_lookup_failed D E { K with Upload := U } service c mem pool w r fs
      user session err hnew herr hfs huser hsess hlock hfile
  · intro file uerr hfile hup
    refine ⟨?_, hfailed, ?_⟩
    · rw [ProcessCallback_upload_path D E K service c mem pool w r fs user session file
        hnew herr hfs huser hsess hlock hfile]
      simp only [Option.map_some', hup]
    · intro h
      exact hfailed (congrArg Response.Code h)

/-- C12 on a sample: the callback of a session `zzz` that has no placeholder, and the callback
of the session `abc` whose upload fails. -/
theorem ProcessCallback_failures_witness :
    (ProcessCallback sampleDrivers sampleEnv (sampleCallbackEnv false none) sampleService
        (sampleCallbackContext ⟨"zzz", 7, sampleSession.Policy⟩) (sampleMem "local") [] []).map
        (fun res => (res.resp.Code, res.world, res.atReturn.map (fun f => f.Hooks)))
      = some (40011, [], some none) ∧
    (ProcessCallback sampleDrivers sampleEnv
        (sampleCallbackEnv false (some (Error.foreign "disk full"))) sampleService
        (sampleCallbackContext sampleSession) (sampleMem "local") [] []).map
        (fun res => res.resp)
      = some (Err 40002 (Msg.errorText (Error.foreign "disk full"))
          (some (Error.foreign "disk full"))) := by
  constructor
  · have h := ((ProcessCallback_failures sampleDrivers sampleEnv (sampleCallbackEnv false none)
      sampleService (sampleCallbackContext ⟨"zzz", 7, sampleSession.Policy⟩) (sampleMem "local")
      [] [] (sampleNewFS sampleSession) sampleCallbackFS ⟨7⟩ ⟨"zzz", 7, sampleSession.Policy⟩
      (by simp [NewFileSystemFromCallback, NewFileSystemFromContext, NewFileSystem, getEmptyFS,
        DispatchHandler, sampleCallbackContext, sampleCallbackEnv, sampleMem, sampleDrivers,
        sampleSession, sampleNewFS, sampleCallbackFS, FileSystem.empty])
      rfl rfl rfl rfl rfl (by decide) (by decide)).1 (Error.foreign "record not found")
      (by simp [sampleCallbackEnv])).1 (sampleCallbackEnv false none).Upload
    rw [h]
    rfl
  · exact ((ProcessCallback_failures sampleDrivers sampleEnv
      (sampleCallbackEnv false (some (Error.foreign "disk full"))) sampleService
      (sampleCallbackContext sampleSession) (sampleMem "local") [] []
      (sampleNewFS sampleSession) sampleCallbackFS ⟨7⟩ sampleSession
      (by simp [NewFileSystemFromCallback, NewFileSystemFromContext, NewFileSystem, getEmptyFS,
        DispatchHandler, sampleCallbackContext, sampleCallbackEnv, sampleMem, sampleDrivers,
        sampleSession, sampleNewFS, sampleCallbackFS, FileSystem.empty])
      rfl rfl rfl rfl rfl (by decide) (by decide)).2 ⟨9, "a.txt"⟩ (Error.foreign "disk full")
      (by simp [sampleCallbackEnv, sampleSession]) rfl).1

/-! ### Driver selection -/

/-- C13, as stated, fails: two file systems bound to the same policy of type `mock`, one with
no handler and one with the local driver, both dispatch with success and keep the handlers
they had: the handler after a successful dispatch depends on the handler bound before. -/
theorem DispatchHandler_mock_keeps_handler :
    sampleFS.Policy = ({ sampleFS with Handler := none } : FileSystem (List String)).Policy ∧
    (DispatchHandler sampleDrivers (sampleMem "mock") sampleFS).2 = none ∧
    (DispatchHandler sampleDrivers (sampleMem "mock") { sampleFS with Handler := none }).2
      = none ∧
    (DispatchHandler sampleDrivers (sampleMem "mock") sampleFS).1.Handler.isSome = true ∧
    (DispatchHandler sampleDrivers (sampleMem "mock")
      { sampleFS with Handler := none }).1.Handler.isSome = false ∧
    ¬ ((DispatchHandler sampleDrivers (sampleMem "mock") sampleFS).1.Handler
      = (DispatchHandler sampleDrivers (sampleMem "mock")
          { sampleFS with Handler := none }).1.Handler) := by
  refine ⟨rfl, rfl, rfl, rfl, rfl, ?_⟩
  intro h
  have h2 := congrArg Option.isSome h
  have h3 : (DispatchHandler sampleDrivers (sampleMem "mock") sampleFS).1.Handler.isSome
      = true := rfl
  have h4 : (DispatchHandler sampleDrivers (sampleMem "mock")
      { sampleFS with Handler := none }).1.Handler.isSome = false := rfl
  rw [h3, h4] at h2
  exact Bool.noConfusion h2

/-- C13, amended: for two file systems bound to the same policy, whatever handlers they hold
beforehand, when the policy type is `local` the dispatch succeeds and binds the local driver
of that policy in both; when it is `remote` and the dispatch succeeds, both are left with the
driver that `remote.NewDriver` builds for that policy; in both cases the handler afterwards
does not depend on the one bound before.  When the policy type is `mock` or `anonymous` the
dispatch succeeds without assigning the handler: the handler afterwards is the one bound
before. -/
theorem DispatchHandler_handler_of_policy {W : Type} (D : Drivers W) (mem : Mem)
    (fs1 fs2 : FileSystem W) (p : PolicyPtr) (hp1 : fs1.Policy = some p)
    (hp2 : fs2.Policy = some p) :
    ((mem p).Type_ = "local" →
      (DispatchHandler D mem fs1).2 = none ∧ (DispatchHandler D mem fs2).2 = none ∧
      (DispatchHandler D mem fs1).1.Handler = some (D.localDriver (some p)) ∧
      (DispatchHandler D mem fs2).1.Handler = (DispatchHandler D mem fs1).1.Handler) ∧
    ((mem p).Type_ = "remote" → (DispatchHandler D mem fs1).2 = none →
      (DispatchHandler D mem fs2).2 = none ∧
      (∃ h, D.remoteNewDriver mem p = Except.ok h ∧
        (DispatchHandler D mem fs1).1.Handler = some h) ∧
      (DispatchHandler D mem fs2).1.Handler = (DispatchHandler D mem fs1).1.Handler) ∧
    ((mem p).Type_ = "mock" ∨ (mem p).Type_ = "anonymous" →
      DispatchHandler D mem fs1 = (fs1, none) ∧ DispatchHandler D mem fs2 = (fs2, none)) := by
  refine ⟨?_, ?_, ?_⟩
  · intro ht
    simp [DispatchHandler, hp1, hp2, ht]
  · intro ht hok
    cases hn : D.remoteNewDriver mem p with
    | error e => simp [DispatchHandler, hp1, ht, hn] at hok
    | ok h => simp [DispatchHandler, hp1, hp2, ht, hn]
  · intro ht
    rcases ht with ht | ht <;> simp [DispatchHandler, hp1, hp2, ht]

/-- C13, amended, on a sample: the sample file system with and without a handler, under a
`local` policy, then under a `remote` policy, then under a `mock` policy. -/
theorem DispatchHandler_handler_of_policy_witness :
    ((DispatchHandler sampleDrivers (sampleMem "local") { sampleFS with Handler := none }).1.Handler
      = (DispatchHandler sampleDrivers (sampleMem "local") sampleFS).1.Handler) ∧
    ((DispatchHandler sampleDrivers (sampleMem "remote")
        { sampleFS with Handler := none }).1.Handler
      = (DispatchHandler sampleDrivers (sampleMem "remote") sampleFS).1.Handler) ∧
    DispatchHandler sampleDrivers (sampleMem "mock") sampleFS = (sampleFS, none) :=
  ⟨((DispatchHandler_handler_of_policy sampleDrivers (sampleMem "local") sampleFS
      { sampleFS with Handler := none } 0 rfl rfl).1 rfl).2.2.2,
    ((DispatchHandler_handler_of_policy sampleDrivers (sampleMem "remote") sampleFS
      { sampleFS with Handler := none } 0 rfl rfl).2.1 rfl rfl).2.2,
    ((DispatchHandler_handler_of_policy sampleDrivers (sampleMem "mock") sampleFS
      { sampleFS with Handler := none } 0 rfl rfl).2.2 (Or.inl rfl)).1⟩

/-! ### The notification relay -/

/-- C14: `HandleSlaveNotificationPush` is a pure relay.  For a request body that decodes to a
message `m`, the bus afterwards is the bus before with the one publication of `m`, as decoded,
under the subject the push is addressed to (the field `Subject` of the service, bound from the
request URI), and the response is the empty response; for a body that does not decode, the bus
is untouched and the response is the parameter error. -/
theorem HandleSlaveNotificationPush_relay {M Q : Type} (E : Env)
    (decode : String → Except Error M) (Publish : String → M → Q → Q)
    (s : SlaveNotificationService) (c : Context) (mq : Q) :
    (∀ m, decode c.Request.Body = Except.ok m →
      HandleSlaveNotificationPush E decode Publish s c mq
        = (Response.zero, Publish s.Subject m mq)) ∧
    (∀ err, decode c.Request.Body = Except.error err →
      HandleSlaveNotificationPush E decode Publish s c mq
        = (ParamErr E (Msg.text "Cannot parse notification message") (some err), mq) ∧
      (HandleSlaveNotificationPush E decode Publish s c mq).1.Code = E.CodeParamErr) := by
  constructor
  · intro m hm
    simp [HandleSlaveNotificationPush, hm]
  · intro err he
    simp [HandleSlaveNotificationPush, he, ParamErr, Err]

/-- C14 on a sample: a body that decodes to `hello` pushed to the subject `task.1` on a bus
that already holds one publication, and an empty body, which does not decode. -/
theorem HandleSlaveNotificationPush_relay_witness :
    HandleSlaveNotificationPush sampleEnv sampleDecode samplePublish ⟨"task.1"⟩
        { sampleCallbackContext sampleSession with Request := ⟨"PUT", "/x", "hello", ""⟩ }
        [("task.0", "old")]
      = (Response.zero, [("task.0", "old"), ("task.1", "hello")]) ∧
    HandleSlaveNotificationPush sampleEnv sampleDecode samplePublish ⟨"task.1"⟩
        { sampleCallbackContext sampleSession with Request := ⟨"PUT", "/x", "", ""⟩ }
        [("task.0", "old")]
      = (ParamErr sampleEnv (Msg.text "Cannot parse notification message")
          (some (Error.foreign "unexpected EOF")), [("task.0", "old")]) :=
  ⟨(HandleSlaveNotificationPush_relay sampleEnv sampleDecode samplePublish ⟨"task.1"⟩
      { sampleCallbackContext sampleSession with Request := ⟨"PUT", "/x", "hello", ""⟩ }
      [("task.0", "old")]).1 "hello" (by simp [sampleDecode]),
    ((HandleSlaveNotificationPush_relay sampleEnv sampleDecode samplePublish ⟨"task.1"⟩
      { sampleCallbackContext sampleSession with Request := ⟨"PUT", "/x", "", ""⟩ }
      [("task.0", "old")]).2 (Error.foreign "unexpected EOF") (by simp [sampleDecode])).1⟩

end Cloudreve
